import Mathlib

/-!
# Linux-app-wrapper: the library-override decision engine of `wrapper.c`

A shallow embedding of `wrapper.c`.  The dynamic loader (`dlopen`, `dlvsym`,
`dlsym`, `dlerror`, `dlclose`) is an explicit environment `DynLoader`; the
process state that the C code mutates (the `debugOutput` flag, the
`fallback_libs` array, both output streams, the environment variable and the
sequence of loader calls made so far) is an explicit `State` threaded through
every function.
-/

namespace Wrapper

/-! ## Data model -/

/-- A library handle as returned by a successful `dlopen`. -/
abbrev Handle := Nat

/-- The C `struct gcc_version_check`; a `NULL` `fn_name` is `none`. -/
structure gcc_version_check where
  gcc_ver_name : String
  fn_version : String
  fn_name : Option String
  deriving DecidableEq, Repr

/-- The C `struct My_SDL2_version` (three `unsigned char` fields). -/
structure My_SDL2_version where
  major : Nat
  minor : Nat
  patch : Nat
  deriving DecidableEq, Repr

/-- The C `struct fallback_lib`; `use` is set by `check_fallback_libs`. -/
structure fallback_lib where
  name : String
  dir : String
  use : Int
  deriving DecidableEq, Repr

/-- One call into the dynamic loader, with its outcome. -/
inductive DlEvent where
  | dlopen (path : String) (result : Option Handle)
  | dlvsym (handle : Handle) (name : String) (version : String) (found : Bool)
  | dlsym (handle : Handle) (name : String) (found : Bool)
  | call (handle : Handle) (name : String)
  | dlerror
  | dlclose (handle : Handle)
  deriving DecidableEq, Repr

/-- The dynamic loader as seen by the wrapper: which paths load, which
versioned symbols resolve in a loaded library, what an unversioned lookup
yields (the function found, given by its effect on the struct it is handed), and
the text `dlerror` gives for a path that failed to load. -/
structure DynLoader where
  dlopen : String → Option Handle
  dlvsym : Handle → String → String → Bool
  dlsym : Handle → String → Option (My_SDL2_version → My_SDL2_version)
  dlerror : String → String

/-- The mutable process state of the wrapper. -/
structure State where
  debugOutput : Int
  wrapper_exe_dir : String
  fallback_libs : List fallback_lib
  LD_LIBRARY_PATH : Option String
  stdout : List String
  stderr : List String
  dl : List DlEvent
  deriving DecidableEq, Repr

/-- Append one loader call to the trace. -/
def State.record (s : State) (e : DlEvent) : State :=
  { s with dl := s.dl ++ [e] }

/-- The macro `dprintf`: prints to standard output when `debugOutput` is set. -/
def dprintf (s : State) (msg : String) : State :=
  if s.debugOutput ≠ 0 then { s with stdout := s.stdout ++ [msg] } else s

/-- The macro `eprintf`: prints to standard error, unconditionally. -/
def eprintf (s : State) (msg : String) : State :=
  { s with stderr := s.stderr ++ [msg] }

/-! ## Symbol probe engine -/

/-- The `for` loop of `get_gcc_version` over the remaining tiers, `i` being the
index of the first of them and `ret` the best match so far. -/
def get_gcc_version_loop (L : DynLoader) (handle : Handle) :
    List gcc_version_check → Nat → Int → State → Int × State
  | [], _, ret, s => (ret, s)
  | c :: rest, i, ret, s =>
    match c.fn_name with
    | none => get_gcc_version_loop L handle rest (i + 1) ret s
    | some fn_name =>
      let found := L.dlvsym handle fn_name c.fn_version
      let s1 := s.record (DlEvent.dlvsym handle fn_name c.fn_version found)
      if found then get_gcc_version_loop L handle rest (i + 1) (i : Int) s1
      else (ret, s1.record DlEvent.dlerror)

/-- The C function `get_gcc_version`.  The array argument is read at the indices
below `num_checks` only, so the loop runs over the first `num_checks` tiers. -/
def get_gcc_version (L : DynLoader) (libpath : String)
    (checks : List gcc_version_check) (num_checks : Int) (s : State) : Int × State :=
  let s0 := s.record (DlEvent.dlopen libpath (L.dlopen libpath))
  match L.dlopen libpath with
  | none =>
    let s1 := s0.record DlEvent.dlerror
    (-1, eprintf s1 ("couldn't dlopen() " ++ libpath ++ " : " ++ L.dlerror libpath ++ "\n"))
  | some handle =>
    let r := get_gcc_version_loop L handle (checks.take num_checks.toNat) 0 (-1) s0
    (r.1, r.2.record (DlEvent.dlclose handle))

/-- The C function `get_gcc_version_name`.  The C code passes an index below the
table size only; the model gives the empty string for any other index. -/
def get_gcc_version_name (checks : List gcc_version_check) (idx : Int) : String :=
  if idx < 0 then "Not found"
  else match checks[idx.toNat]? with
    | some c => c.gcc_ver_name
    | none => ""

/-! ## Version registry -/

/-- The static table `libstdcpp_version_checks`; `HAVE_64_BIT` is the C
constant `sizeof(void*) == 8`. -/
def libstdcpp_version_checks (HAVE_64_BIT : Bool) : List gcc_version_check :=
  [ ⟨"3.4.0", "GLIBCXX_3.4", some "_ZNSt5ctypeIwED2Ev"⟩,
    ⟨"3.4.1", "GLIBCXX_3.4.1", some "_ZNSt12__basic_fileIcE4fileEv"⟩,
    ⟨"3.4.2", "GLIBCXX_3.4.2", some "_ZN9__gnu_cxx17__pool_alloc_base12_M_get_mutexEv"⟩,
    ⟨"3.4.3", "GLIBCXX_3.4.3", none⟩,
    ⟨"4.0.0", "GLIBCXX_3.4.4", some "_ZN9__gnu_cxx6__poolILb0EE10_M_destroyEv"⟩,
    ⟨"4.0.1", "GLIBCXX_3.4.5", some "_ZNKSs11_M_disjunctEPKc"⟩,
    ⟨"4.0.2", "GLIBCXX_3.4.6", some "_ZNSt6locale5facet13_S_get_c_nameEv"⟩,
    ⟨"4.0.3", "GLIBCXX_3.4.7",
      if HAVE_64_BIT then some "_ZNSt6locale5_Impl16_M_install_cacheEPKNS_5facetEm"
      else some "_ZNSt6locale5_Impl16_M_install_cacheEPKNS_5facetEj"⟩,
    ⟨"4.1.1", "GLIBCXX_3.4.8",
      if HAVE_64_BIT then
        some "_ZSt17__copy_streambufsIcSt11char_traitsIcEElPSt15basic_streambufIT_T0_ES6_"
      else none⟩,
    ⟨"4.2.0", "GLIBCXX_3.4.9", some "_ZNSo9_M_insertIdEERSoT_"⟩,
    ⟨"4.3.0", "GLIBCXX_3.4.10", some "_ZNKSt4hashISbIwSt11char_traitsIwESaIwEEEclES3_"⟩,
    ⟨"4.4.0", "GLIBCXX_3.4.11", some "_ZSt16generic_categoryv"⟩,
    ⟨"4.4.1", "GLIBCXX_3.4.12", none⟩,
    ⟨"4.4.2", "GLIBCXX_3.4.13",
      some "_ZNSt14basic_ofstreamIcSt11char_traitsIcEEC2ERKSsSt13_Ios_Openmode"⟩,
    ⟨"4.5.0", "GLIBCXX_3.4.14", some "_ZNSs13shrink_to_fitEv"⟩,
    ⟨"4.6.0", "GLIBCXX_3.4.15", some "_ZNSt17bad_function_callD2Ev"⟩,
    ⟨"4.6.1", "GLIBCXX_3.4.16",
      if HAVE_64_BIT then some "_ZNSs10_S_compareEmm" else some "_ZNSs10_S_compareEjj"⟩,
    ⟨"4.7.0", "GLIBCXX_3.4.17", some "_ZNSt6thread20hardware_concurrencyEv"⟩,
    ⟨"4.8.0", "GLIBCXX_3.4.18", some "_ZNSt13random_device9_M_getvalEv"⟩,
    ⟨"4.8.3", "GLIBCXX_3.4.19", some "_ZNSt6chrono3_V212steady_clock3nowEv"⟩,
    ⟨"4.9.0", "GLIBCXX_3.4.20", some "_ZSt14get_unexpectedv"⟩,
    ⟨"5.1.0", "GLIBCXX_3.4.21", some "_ZNSt13runtime_errorC1EPKc"⟩,
    ⟨"6.1.0", "GLIBCXX_3.4.22", some "_ZNSt6thread6_StateD1Ev"⟩,
    ⟨"7.1.0", "GLIBCXX_3.4.23",
      if HAVE_64_BIT then some "_ZNSsC1ERKSsmRKSaIcE" else some "_ZNSsC1ERKSsjRKSaIcE"⟩,
    ⟨"7.2.0", "GLIBCXX_3.4.24",
      if HAVE_64_BIT then none else some "_ZNSbIwSt11char_traitsIwESaIwEEC2ERKS2_jRKS1_"⟩,
    ⟨"8.1.0", "GLIBCXX_3.4.25", some "_ZNKSt13random_device13_M_getentropyEv"⟩,
    ⟨"9.1.0", "GLIBCXX_3.4.26", some "_ZNSs4dataEv"⟩,
    ⟨"9.2.0", "GLIBCXX_3.4.27",
      some "_ZNSt10filesystem28recursive_directory_iteratoraSERKS0_"⟩,
    ⟨"9.3.0", "GLIBCXX_3.4.28", some "_ZNSt3pmr15memory_resourceD0Ev"⟩,
    ⟨"11.1.0", "GLIBCXX_3.4.29", some "_ZNSs7reserveEv"⟩,
    ⟨"12.1.0", "GLIBCXX_3.4.30", some "_ZSt21__glibcxx_assert_failPKciS0_S0_"⟩,
    ⟨"13.1.0", "GLIBCXX_3.4.31", some "_ZSt8to_charsPcS_DF128_"⟩,
    ⟨"13.2.0", "GLIBCXX_3.4.32", some "_ZSt21ios_base_library_initv"⟩ ]

/-- The enumerator `_NUM_STDCPP_GCC_VERSIONS` of `enum stdcpp_gcc_version`: the
enumerators run from `STDCPP_GCC_3_4_0 = 0` to `STDCPP_GCC_13_2_0 = 32`. -/
def NUM_STDCPP_GCC_VERSIONS : Int := 33

/-- The C function `get_libstdcpp_version`. -/
def get_libstdcpp_version (HAVE_64_BIT : Bool) (L : DynLoader) (path : String)
    (s : State) : Int × State :=
  get_gcc_version L path (libstdcpp_version_checks HAVE_64_BIT) NUM_STDCPP_GCC_VERSIONS s

/-- The static table `libgcc_version_checks`. -/
def libgcc_version_checks (HAVE_64_BIT : Bool) : List gcc_version_check :=
  [ ⟨"3.0.0", "GCC_3.0", some "__mulvsi3"⟩,
    ⟨"3.3.0", "GCC_3.3", some "_Unwind_Backtrace"⟩,
    ⟨"3.3.1", "GCC_3.3.1", some "__gcc_personality_v0"⟩,
    ⟨"3.3.2", "GCC_3.3.2", none⟩,
    ⟨"3.3.4", "GCC_3.3.4", none⟩,
    ⟨"3.4.0", "GCC_3.4", some "__paritydi2"⟩,
    ⟨"3.4.2", "GCC_3.4.2", some "__enable_execute_stack"⟩,
    ⟨"3.4.4", "GCC_3.4.4", if HAVE_64_BIT then some "__addvti3" else none⟩,
    ⟨"4.0.0", "GCC_4.0.0", some "__muldc3"⟩,
    ⟨"4.1.0", "GCC_4.1.0", none⟩,
    ⟨"4.2.0", "GCC_4.2.0", some "_Unwind_GetIPInfo"⟩,
    ⟨"4.3.0", "GCC_4.3.0", some "__bswapdi2"⟩,
    ⟨"4.4.0", "GCC_4.4.0", if HAVE_64_BIT then none else some "__letf2"⟩,
    ⟨"4.5.0", "GCC_4.5.0", if HAVE_64_BIT then none else some "__extendxftf2"⟩,
    ⟨"4.6.0", "GCC_4.6.0", none⟩,
    ⟨"4.7.0", "GCC_4.7.0", some "__clrsbdi2"⟩,
    ⟨"4.8.0", "GCC_4.8.0", some "__cpu_indicator_init"⟩,
    ⟨"7.0.0", "GCC_7.0.0", if HAVE_64_BIT then some "__divmodti4" else some "__divmoddi4"⟩,
    ⟨"12.1.0", "GCC_12.0.0", some "__nehf2"⟩,
    ⟨"13.1.0", "GCC_13.0.0", some "__truncdfbf2"⟩ ]

/-- The enumerator `_NUM_LIBGCC_VERSIONS` of `enum libgcc_version`: the
enumerators run from `LIBGCC_3_0_0 = 0` to `LIBGCC_13_1_0 = 19`. -/
def NUM_LIBGCC_VERSIONS : Int := 20

/-- The C function `get_libgcc_version`. -/
def get_libgcc_version (HAVE_64_BIT : Bool) (L : DynLoader) (path : String)
    (s : State) : Int × State :=
  get_gcc_version L path (libgcc_version_checks HAVE_64_BIT) NUM_LIBGCC_VERSIONS s

/-! ## Semantic version reader -/

/-- Storing into the three `unsigned char` fields of `My_SDL2_version`. -/
def My_SDL2_version.store (v : My_SDL2_version) : My_SDL2_version :=
  ⟨v.major % 256, v.minor % 256, v.patch % 256⟩

/-- The C function `get_libsdl2_version`.  The arguments of `dprintf` (the call
of `dlerror` among them) are evaluated only when `debugOutput` is set. -/
def get_libsdl2_version (L : DynLoader) (path : String) (s : State) :
    My_SDL2_version × State :=
  let ret : My_SDL2_version := ⟨0, 0, 0⟩
  let s0 := s.record (DlEvent.dlopen path (L.dlopen path))
  match L.dlopen path with
  | none =>
    let s1 := if s0.debugOutput ≠ 0 then s0.record DlEvent.dlerror else s0
    (ret, dprintf s1 ("couldn't dlopen() " ++ path ++ " : " ++ L.dlerror path ++ "\n"))
  | some handle =>
    let s1 := s0.record
      (DlEvent.dlsym handle "SDL_GetVersion" (L.dlsym handle "SDL_GetVersion").isSome)
    match L.dlsym handle "SDL_GetVersion" with
    | none =>
      let s2 := eprintf s1 ("Couldn't find SDL_GetVersion() in " ++ path ++ " !\n")
      (ret, s2.record (DlEvent.dlclose handle))
    | some sdl_getversion =>
      let s2 := s1.record (DlEvent.call handle "SDL_GetVersion")
      ((sdl_getversion ret).store, s2.record (DlEvent.dlclose handle))

/-! ## Decision aggregator -/

/-- The Linux value of `PATH_MAX` from `limits.h`. -/
def PATH_MAX : Nat := 4096

def FALLBACK_DIR_STDCPP : String := "libs/stdcpp"
def FALLBACK_DIR_GCC : String := "libs/gcc"
def FALLBACK_DIR_SDL2 : String := "libs/sdl2"
def FALLBACK_DIR_CURL : String := "libs/curl"

/-- The static array `fallback_libs` as initialised, with all four `CHECK_*`
macros defined as in the source. -/
def fallback_libs : List fallback_lib :=
  [ ⟨"libstdc++.so.6", FALLBACK_DIR_STDCPP, 0⟩,
    ⟨"libgcc_s.so.1", FALLBACK_DIR_GCC, 0⟩,
    ⟨"libSDL2-2.0.so.0", FALLBACK_DIR_SDL2, 0⟩,
    ⟨"libcurl.so.4", FALLBACK_DIR_CURL, 0⟩ ]

/-- Reading `fallback_libs[idx]`.  The C code reads inside the array only; the
model gives an empty entry outside it. -/
def State.fb (s : State) (idx : Nat) : fallback_lib :=
  s.fallback_libs.getD idx ⟨"", "", 0⟩

/-- The assignment `libs[idx].use = 1`, for `idx` inside the array. -/
def set_use : List fallback_lib → Nat → List fallback_lib
  | [], _ => []
  | fb :: rest, 0 => { fb with use := 1 } :: rest
  | fb :: rest, idx + 1 => fb :: set_use rest idx

/-- The assignment `fallback_libs[idx].use = 1`. -/
def State.fb_set_use (s : State) (idx : Nat) : State :=
  { s with fallback_libs := set_use s.fallback_libs idx }

/-- The call `snprintf(local_path, PATH_MAX, "%s/%s", dir, name)`: at most
`PATH_MAX - 1` characters are stored. -/
def snprintf_local_path (dir name : String) : String :=
  String.mk ((dir ++ "/" ++ name).data.take (PATH_MAX - 1))

/-- The second half of the `CHECK_LIBSTDCPP` block of `check_fallback_libs`: the
debug report and the comparison of the two probe results. -/
def compare_libstdcpp (HAVE_64_BIT : Bool) (fb_lib_idx : Nat) (sys_ver our_ver : Int)
    (s : State) : State :=
  let s1 := dprintf s ("System libstdc++ version: "
    ++ get_gcc_version_name (libstdcpp_version_checks HAVE_64_BIT) sys_ver ++ " ours: "
    ++ get_gcc_version_name (libstdcpp_version_checks HAVE_64_BIT) our_ver ++ "\n")
  if our_ver > sys_ver then
    (dprintf s1 "Overwriting System libstdc++\n").fb_set_use fb_lib_idx
  else s1

/-- The `CHECK_LIBSTDCPP` block of `check_fallback_libs`. -/
def check_libstdcpp (HAVE_64_BIT : Bool) (L : DynLoader) (fb_lib_idx : Nat) (s : State) :
    State :=
  let r1 := get_libstdcpp_version HAVE_64_BIT L (s.fb fb_lib_idx).name s
  let sys_ver := r1.1
  let local_path := snprintf_local_path (r1.2.fb fb_lib_idx).dir (r1.2.fb fb_lib_idx).name
  let r2 := get_libstdcpp_version HAVE_64_BIT L local_path r1.2
  let our_ver := r2.1
  compare_libstdcpp HAVE_64_BIT fb_lib_idx sys_ver our_ver r2.2

/-- The second half of the `CHECK_LIBGCC` block of `check_fallback_libs`: the
debug report and the comparison of the two probe results. -/
def compare_libgcc (HAVE_64_BIT : Bool) (fb_lib_idx : Nat) (sys_ver our_ver : Int)
    (s : State) : State :=
  let s1 := dprintf s ("System libgcc version: "
    ++ get_gcc_version_name (libgcc_version_checks HAVE_64_BIT) sys_ver ++ " ours: "
    ++ get_gcc_version_name (libgcc_version_checks HAVE_64_BIT) our_ver ++ "\n")
  if our_ver > sys_ver then
    (dprintf s1 "Overwriting System libgcc\n").fb_set_use fb_lib_idx
  else s1

/-- The `CHECK_LIBGCC` block of `check_fallback_libs`. -/
def check_libgcc (HAVE_64_BIT : Bool) (L : DynLoader) (fb_lib_idx : Nat) (s : State) :
    State :=
  let r1 := get_libgcc_version HAVE_64_BIT L (s.fb fb_lib_idx).name s
  let sys_ver := r1.1
  let local_path := snprintf_local_path (r1.2.fb fb_lib_idx).dir (r1.2.fb fb_lib_idx).name
  let r2 := get_libgcc_version HAVE_64_BIT L local_path r1.2
  let our_ver := r2.1
  compare_libgcc HAVE_64_BIT fb_lib_idx sys_ver our_ver r2.2

/-- The `%d.%d.%d` rendering of a version triple. -/
def My_SDL2_version.render (v : My_SDL2_version) : String :=
  toString v.major ++ "." ++ toString v.minor ++ "." ++ toString v.patch

/-- The second half of the `CHECK_LIBSDL2` block of `check_fallback_libs`: the
debug report and the comparison of the two version triples. -/
def compare_libsdl2 (fb_lib_idx : Nat) (sdl_sys_ver sdl_our_ver : My_SDL2_version)
    (s : State) : State :=
  let s1 := dprintf s ("System SDL2 version: " ++ sdl_sys_ver.render ++ " ours: "
    ++ sdl_our_ver.render ++ "\n")
  if sdl_our_ver.major ≠ 0
      ∧ (sdl_sys_ver.major ≠ sdl_our_ver.major
        ∨ sdl_sys_ver.minor < sdl_our_ver.minor
        ∨ (sdl_sys_ver.minor = sdl_our_ver.minor ∧ sdl_sys_ver.patch < sdl_our_ver.patch)) then
    (dprintf s1 "Overwriting System libSDL2\n").fb_set_use fb_lib_idx
  else s1

/-- The `CHECK_LIBSDL2` block of `check_fallback_libs`. -/
def check_libsdl2 (L : DynLoader) (fb_lib_idx : Nat) (s : State) : State :=
  let r1 := get_libsdl2_version L (s.fb fb_lib_idx).name s
  let sdl_sys_ver := r1.1
  let local_path := snprintf_local_path (r1.2.fb fb_lib_idx).dir (r1.2.fb fb_lib_idx).name
  let r2 := get_libsdl2_version L local_path r1.2
  let sdl_our_ver := r2.1
  compare_libsdl2 fb_lib_idx sdl_sys_ver sdl_our_ver r2.2

/-- The `CHECK_LIBCURL4` block of `check_fallback_libs`. -/
def check_libcurl4 (L : DynLoader) (fb_lib_idx : Nat) (s : State) : State :=
  let name := (s.fb fb_lib_idx).name
  let s0 := s.record (DlEvent.dlopen name (L.dlopen name))
  match L.dlopen name with
  | none =>
    (dprintf s0 "Couldn't find libcurl.so.4 on System, will use bundled version\n").fb_set_use
      fb_lib_idx
  | some curlHandle =>
    (dprintf s0 "Will use System's libcurl.so.4\n").record (DlEvent.dlclose curlHandle)

/-- The C function `check_fallback_libs`. -/
def check_fallback_libs (HAVE_64_BIT : Bool) (L : DynLoader) (s : State) : Int × State :=
  let fb_lib_idx := 0
  let s1 := check_libstdcpp HAVE_64_BIT L fb_lib_idx s
  let fb_lib_idx := fb_lib_idx + 1
  let s2 := check_libgcc HAVE_64_BIT L fb_lib_idx s1
  let fb_lib_idx := fb_lib_idx + 1
  let s3 := check_libsdl2 L fb_lib_idx s2
  let fb_lib_idx := fb_lib_idx + 1
  let s4 := check_libcurl4 L fb_lib_idx s3
  (1, s4)

/-! ## Path composer -/

/-- The C library calls of `set_ld_library_path` whose outcome the wrapper does
not control: whether `malloc` of a given size succeeds, and whether `setenv` of a
given value succeeds (`none`) or fails with an `errno` and its `strerror` text. -/
structure LibC where
  malloc : Nat → Bool
  setenv : String → Option (Int × String)

/-- The C function `strlen`; a C string is a Lean string, one `Char` for each
C `char`. -/
def strlen (str : String) : Nat := str.length

/-- The first loop of `set_ld_library_path`, over the remaining entries of
`fallback_libs` (`NUM_FALLBACK_LIBS` is the size of that array): it accumulates
`len` and `num_used_overrides`. -/
def ld_path_len_loop (wrapper_dir_len : Nat) : List fallback_lib → Nat × Nat → Nat × Nat
  | [], acc => acc
  | fb :: rest, (len, num_used_overrides) =>
    if fb.use ≠ 0 then
      ld_path_len_loop wrapper_dir_len rest
        (len + (wrapper_dir_len + strlen fb.dir + 1), num_used_overrides + 1)
    else ld_path_len_loop wrapper_dir_len rest (len, num_used_overrides)

/-- The second loop of `set_ld_library_path`, over the remaining entries of
`fallback_libs`: the four `strcat` calls onto `new_val` for each used entry. -/
def ld_path_cat_loop (wrapper_exe_dir : String) : List fallback_lib → String → String
  | [], new_val => new_val
  | fb :: rest, new_val =>
    if fb.use ≠ 0 then
      ld_path_cat_loop wrapper_exe_dir rest
        ((((new_val ++ wrapper_exe_dir) ++ "/") ++ fb.dir) ++ ":")
    else ld_path_cat_loop wrapper_exe_dir rest new_val

/-- The assignment `new_val[strlen(new_val) - 1] = 0`, which cuts the last
character off a non-empty string. -/
def cut_last (new_val : String) : String :=
  String.mk new_val.data.dropLast

/-- The value of `old_val` after the first `if` of `set_ld_library_path`: an
empty `LD_LIBRARY_PATH` is treated like an unset one. -/
def ld_path_old_val (s : State) : Option String :=
  match s.LD_LIBRARY_PATH with
  | none => none
  | some v => if v.data ≠ [] then some v else none

/-- The value of `len` computed by the first pass of `set_ld_library_path`
together with `num_used_overrides`. -/
def ld_path_len (s : State) : Nat × Nat :=
  let len0 : Nat := 1
  let len1 := match ld_path_old_val s with
    | some v => len0 + (strlen v + 1)
    | none => len0
  let wrapper_dir_len := strlen s.wrapper_exe_dir + 1
  ld_path_len_loop wrapper_dir_len s.fallback_libs (len1, 0)

/-- The string `new_val` that `set_ld_library_path` hands to `setenv`. -/
def ld_path_new_val (s : State) : String :=
  let new_val := ld_path_cat_loop s.wrapper_exe_dir s.fallback_libs ""
  match ld_path_old_val s with
  | some old_val => new_val ++ old_val
  | none => cut_last new_val

/-- The C function `set_ld_library_path`. -/
def set_ld_library_path (C : LibC) (s : State) : Int × State :=
  let r := ld_path_len s
  let len := r.1
  let num_used_overrides := r.2
  if num_used_overrides = 0 then
    (1, dprintf s "no need to modify LD_LIBRARY_PATH\n")
  else if C.malloc len = false then (0, s)
  else
    let new_val := ld_path_new_val s
    match C.setenv new_val with
    | none =>
      (1, dprintf { s with LD_LIBRARY_PATH := some new_val }
        ("Set LD_LIBRARY_PATH to '" ++ new_val ++ "'\n"))
    | some (e, strerror_e) =>
      (0, eprintf s ("Failed to set LD_LIBRARY_PATH to '" ++ new_val ++ "' : errnno "
        ++ toString e ++ " (" ++ strerror_e ++ ")\n"))

/-- The process state at the call of `check_fallback_libs` in `main`: nothing
printed, no loader call made, `fallback_libs` as initialised. -/
def init_state (debugOutput : Int) (wrapper_exe_dir : String)
    (LD_LIBRARY_PATH : Option String) : State :=
  { debugOutput := debugOutput, wrapper_exe_dir := wrapper_exe_dir,
    fallback_libs := fallback_libs, LD_LIBRARY_PATH := LD_LIBRARY_PATH,
    stdout := [], stderr := [], dl := [] }

/-! ## Vocabulary of the specification -/

/-- A tier has a probe symbol when its `fn_name` is not `NULL`. -/
def tier_has_probe (c : gcc_version_check) : Bool := c.fn_name.isSome

/-- A tier is unresolved in a loaded library when it has a probe symbol and the
versioned lookup of that symbol fails. -/
def tier_unresolved (L : DynLoader) (handle : Handle) (c : gcc_version_check) : Bool :=
  match c.fn_name with
  | none => false
  | some fn_name => !(L.dlvsym handle fn_name c.fn_version)

/-- The index of the first unresolved tier, or the number of tiers if every
tier with a probe symbol resolves. -/
def first_unresolved (L : DynLoader) (handle : Handle) (tiers : List gcc_version_check) :
    Nat :=
  tiers.findIdx (tier_unresolved L handle)

/-- The index of the last of the given tiers that has a probe symbol, the first
tier having index `i`; `none` if no tier has one. -/
def last_probe_from (i : Nat) (tiers : List gcc_version_check) : Option Nat :=
  (((tiers.enumFrom i).filter (fun p => tier_has_probe p.2)).map Prod.fst).getLast?

/-- The index of the last tier that has a probe symbol, or `-1`. -/
def last_probe_index (tiers : List gcc_version_check) : Int :=
  match last_probe_from 0 tiers with
  | some j => (j : Int)
  | none => -1

/-- The result the specification gives for a probe: `NotFound` (`-1`) when
the library does not load, else the index of the last tier with a probe symbol
among the tiers before the first unresolved one. -/
def probe_spec (L : DynLoader) (libpath : String) (checks : List gcc_version_check)
    (num_checks : Int) : Int :=
  match L.dlopen libpath with
  | none => -1
  | some handle =>
    let tiers := checks.take num_checks.toNat
    last_probe_index (tiers.take (first_unresolved L handle tiers))

/-- The versioned lookups of the probe symbols of the given tiers, in order. -/
def probe_events (L : DynLoader) (handle : Handle) (tiers : List gcc_version_check) :
    List DlEvent :=
  tiers.filterMap (fun c => c.fn_name.map (fun fn_name =>
    DlEvent.dlvsym handle fn_name c.fn_version (L.dlvsym handle fn_name c.fn_version)))

/-- The loader calls the specification allows the scan of a loaded library:
the lookups for the tiers up to and including the first unresolved one, then one
`dlerror` if the scan stopped at an unresolved tier. -/
def scan_events (L : DynLoader) (handle : Handle) (tiers : List gcc_version_check) :
    List DlEvent :=
  probe_events L handle (tiers.take (first_unresolved L handle tiers + 1))
    ++ (if first_unresolved L handle tiers < tiers.length then [DlEvent.dlerror] else [])

/-- The triple the specification gives for a read: the zero sentinel when the
library does not load or has no `SDL_GetVersion`, else the triple that function
fills in. -/
def read_spec (L : DynLoader) (path : String) : My_SDL2_version :=
  match L.dlopen path with
  | none => ⟨0, 0, 0⟩
  | some handle =>
    match L.dlsym handle "SDL_GetVersion" with
    | none => ⟨0, 0, 0⟩
    | some sdl_getversion => (sdl_getversion ⟨0, 0, 0⟩).store

/-- The loader calls of one read of a library that loads. -/
def read_events (L : DynLoader) (handle : Handle) : List DlEvent :=
  match L.dlsym handle "SDL_GetVersion" with
  | none => [DlEvent.dlsym handle "SDL_GetVersion" false, DlEvent.dlclose handle]
  | some _ => [DlEvent.dlsym handle "SDL_GetVersion" true,
      DlEvent.call handle "SDL_GetVersion", DlEvent.dlclose handle]

/-- The loader calls of one probe of `libpath`. -/
def probe_trace (L : DynLoader) (libpath : String) (checks : List gcc_version_check)
    (num_checks : Int) : List DlEvent :=
  match L.dlopen libpath with
  | none => [DlEvent.dlopen libpath none, DlEvent.dlerror]
  | some handle =>
    DlEvent.dlopen libpath (some handle)
      :: (scan_events L handle (checks.take num_checks.toNat) ++ [DlEvent.dlclose handle])

/-- The loader calls of one read of `path`; `dlerror` is called for the debug
report only. -/
def read_trace (L : DynLoader) (path : String) (debugOutput : Int) : List DlEvent :=
  match L.dlopen path with
  | none => DlEvent.dlopen path none :: (if debugOutput ≠ 0 then [DlEvent.dlerror] else [])
  | some handle => DlEvent.dlopen path (some handle) :: read_events L handle

/-- The loader calls of one presence check of `name`. -/
def presence_trace (L : DynLoader) (name : String) : List DlEvent :=
  match L.dlopen name with
  | none => [DlEvent.dlopen name none]
  | some curlHandle => [DlEvent.dlopen name (some curlHandle), DlEvent.dlclose curlHandle]

/-- The operations that open a library: a symbol probe, a version read, and the
presence check of the libcurl block. -/
inductive LoaderOp where
  | probe (libpath : String) (checks : List gcc_version_check) (num_checks : Int)
  | read (path : String)
  | presence (fb_lib_idx : Nat)

/-- The state after one operation. -/
def LoaderOp.run (L : DynLoader) (op : LoaderOp) (s : State) : State :=
  match op with
  | LoaderOp.probe libpath checks num_checks =>
    (get_gcc_version L libpath checks num_checks s).2
  | LoaderOp.read path => (get_libsdl2_version L path s).2
  | LoaderOp.presence fb_lib_idx => check_libcurl4 L fb_lib_idx s

/-- The state after a sequence of operations, each with the loader outcomes
it meets. -/
def run_ops : List (DynLoader × LoaderOp) → State → State
  | [], s => s
  | (L, op) :: rest, s => run_ops rest (op.run L s)

/-- The number of handles acquired in a trace: the successful `dlopen` calls. -/
def acquisitions (trace : List DlEvent) : Nat :=
  trace.countP (fun e => match e with
    | DlEvent.dlopen _ (some _) => true
    | _ => false)

/-- The number of handles released in a trace: the `dlclose` calls. -/
def releases (trace : List DlEvent) : Nat :=
  trace.countP (fun e => match e with
    | DlEvent.dlclose _ => true
    | _ => false)

/-- The handles held after one loader call. -/
def held_step (held : List Handle) : DlEvent → List Handle
  | DlEvent.dlopen _ (some handle) => handle :: held
  | DlEvent.dlclose handle => held.erase handle
  | _ => held

/-- The handles held after a trace, given the handles held before it. -/
def held_after (held : List Handle) (trace : List DlEvent) : List Handle :=
  trace.foldl held_step held

/-- The Ordinal comparison of an entry: the probe of the bundled copy gives a
higher tier than the probe of the system copy. -/
def ordinal_prefers (L : DynLoader) (checks : List gcc_version_check) (num_checks : Int)
    (fb : fallback_lib) : Prop :=
  probe_spec L (snprintf_local_path fb.dir fb.name) checks num_checks
    > probe_spec L fb.name checks num_checks

instance (L : DynLoader) (checks : List gcc_version_check) (num_checks : Int)
    (fb : fallback_lib) : Decidable (ordinal_prefers L checks num_checks fb) := by
  unfold ordinal_prefers; infer_instance

/-- The comparison of two version triples made for the SDL2 entry. -/
def semver_override (sys our : My_SDL2_version) : Prop :=
  our.major ≠ 0
    ∧ (sys.major ≠ our.major ∨ sys.minor < our.minor
      ∨ (sys.minor = our.minor ∧ sys.patch < our.patch))

instance (sys our : My_SDL2_version) : Decidable (semver_override sys our) := by
  unfold semver_override; infer_instance

/-- The SemVer comparison of an entry, on the reads of its two copies. -/
def semver_prefers (L : DynLoader) (fb : fallback_lib) : Prop :=
  semver_override (read_spec L fb.name) (read_spec L (snprintf_local_path fb.dir fb.name))

instance (L : DynLoader) (fb : fallback_lib) : Decidable (semver_prefers L fb) := by
  unfold semver_prefers; infer_instance

/-- The PresenceOnly comparison of an entry: the system copy does not load. -/
def presence_prefers (L : DynLoader) (fb : fallback_lib) : Prop :=
  L.dlopen fb.name = none

instance (L : DynLoader) (fb : fallback_lib) : Decidable (presence_prefers L fb) := by
  unfold presence_prefers; infer_instance

/-- The SemVer comparison in the words of the specification: the bundled
triple is not the all-zero sentinel, and the system triple has another major
version or is behind within the same generation. -/
def semver_as_specified (sys our : My_SDL2_version) : Prop :=
  our ≠ ⟨0, 0, 0⟩
    ∧ (sys.major ≠ our.major ∨ sys.minor < our.minor
      ∨ (sys.minor = our.minor ∧ sys.patch < our.patch))

instance (sys our : My_SDL2_version) : Decidable (semver_as_specified sys our) := by
  unfold semver_as_specified; infer_instance

/-! ## Example inputs -/

/-- A table of three tiers, each with a probe symbol. -/
def table_three : List gcc_version_check :=
  [ ⟨"1.0", "V_1.0", some "f0"⟩, ⟨"1.1", "V_1.1", some "f1"⟩, ⟨"1.2", "V_1.2", some "f2"⟩ ]

/-- A loader in which every path loads and, of all symbols, only `f1` resolves. -/
def loader_only_f1 : DynLoader :=
  { dlopen := fun _ => some 1,
    dlvsym := fun _ name _ => name == "f1",
    dlsym := fun _ _ => none,
    dlerror := fun _ => "" }

/-- A table of four tiers whose second tier has no probe symbol. -/
def table_gap : List gcc_version_check :=
  [ ⟨"1.0", "V_1.0", some "f0"⟩, ⟨"1.1", "V_1.1", none⟩, ⟨"1.2", "V_1.2", some "f2"⟩,
    ⟨"1.3", "V_1.3", some "f3"⟩ ]

/-- A loader in which every path loads and exactly `f0` and `f2` resolve. -/
def loader_f0_f2 : DynLoader :=
  { dlopen := fun _ => some 1,
    dlvsym := fun _ name _ => name == "f0" || name == "f2",
    dlsym := fun _ _ => none,
    dlerror := fun _ => "" }

/-- A loader in which no path loads. -/
def loader_nothing : DynLoader :=
  { dlopen := fun _ => none,
    dlvsym := fun _ _ _ => false,
    dlsym := fun _ _ => none,
    dlerror := fun _ => "cannot open shared object file" }

/-- A loader in which every path loads, no versioned symbol resolves, and
`SDL_GetVersion` reports version 2.0.22. -/
def loader_sdl_only : DynLoader :=
  { dlopen := fun _ => some 7,
    dlvsym := fun _ _ _ => false,
    dlsym := fun _ _ => some (fun _ => ⟨2, 0, 22⟩),
    dlerror := fun _ => "" }

/-- The strings `<installDir>/<bundledDir>` of the entries whose `use` flag is
set, in declared order. -/
def bundled_dirs (s : State) : List String :=
  (s.fallback_libs.filter (fun fb => fb.use ≠ 0)).map
    (fun fb => s.wrapper_exe_dir ++ "/" ++ fb.dir)

/-- A C library in which `malloc` and `setenv` succeed. -/
def libc_ok : LibC :=
  { malloc := fun _ => true, setenv := fun _ => none }

/-- The state after a decision that overrides libstdc++ alone, with
`LD_LIBRARY_PATH` set to the empty string. -/
def state_stdcpp_empty_env : State :=
  { init_state 0 "/opt/game" (some "") with fallback_libs := set_use fallback_libs 0 }

/-- The state after a decision that overrides the second entry (libgcc) alone,
with `LD_LIBRARY_PATH` set to `/usr/local/lib`. -/
def state_gcc_prior_env : State :=
  { init_state 0 "/opt/game" (some "/usr/local/lib") with
    fallback_libs := set_use fallback_libs 1 }

/-! ## Vocabulary for the version registry -/

/-- Reading a dotted numeric version off a list of characters, `acc` being the
value of the digits of the current component read so far; `none` when a
character is neither a decimal digit nor a dot. -/
def dotted_go : List Char → Nat → Option (List Nat)
  | [], acc => some [acc]
  | c :: cs, acc =>
    if c = '.' then (dotted_go cs 0).map (fun rest => acc :: rest)
    else if c.isDigit then dotted_go cs (acc * 10 + (c.toNat - '0'.toNat))
    else none

/-- A label such as `4.8.3` read as the dotted numeric version `[4, 8, 3]`. -/
def dotted (label : String) : Option (List Nat) :=
  dotted_go label.data 0

/-- A version tag such as `GLIBCXX_3.4.19` or `GCC_4.0.0` read as the dotted
numeric version that follows its underscore. -/
def tag_version (tag : String) : Option (List Nat) :=
  dotted_go ((tag.data.dropWhile (fun c => c ≠ '_')).drop 1) 0

/-- The order of dotted numeric versions: component by component from the
left, a version that is the beginning of a longer one being the smaller. -/
def version_lt : List Nat → List Nat → Bool
  | [], [] => false
  | [], _ :: _ => true
  | _ :: _, [] => false
  | a :: as, b :: bs => a < b || (a == b && version_lt as bs)

/-- The order on the outcome of reading two versions; a string that is no
dotted numeric version is below and above nothing. -/
def read_version_lt : Option (List Nat) → Option (List Nat) → Bool
  | some a, some b => version_lt a b
  | _, _ => false

/-- The labels of a table, read as versions, are strictly increasing with the
array index. -/
def labels_ascending (checks : List gcc_version_check) : Prop :=
  (checks.map (fun c => dotted c.gcc_ver_name)).Pairwise
    (fun a b => read_version_lt a b = true)

/-- The version tags of a table, read as versions, are strictly increasing with
the array index. -/
def tags_ascending (checks : List gcc_version_check) : Prop :=
  (checks.map (fun c => tag_version c.fn_version)).Pairwise
    (fun a b => read_version_lt a b = true)

instance (checks : List gcc_version_check) : Decidable (labels_ascending checks) := by
  unfold labels_ascending; infer_instance

instance (checks : List gcc_version_check) : Decidable (tags_ascending checks) := by
  unfold tags_ascending; infer_instance

/-- The tag of tier `i` of the libstdc++ table as the comment on
`enum stdcpp_gcc_version` gives it: `GLIBCXX_3.4` for tier 0, `GLIBCXX_3.4.i`
above. -/
def glibcxx_tag (i : Nat) : String :=
  if i = 0 then "GLIBCXX_3.4" else "GLIBCXX_3.4." ++ toString i

/-! ## Vocabulary for the buffer of the path composer -/

/-- The contents of the buffer `new_val` after each `strcat` of the second loop
of `set_ld_library_path`, over the remaining entries of `fallback_libs`, in
order. -/
def ld_path_cat_steps (wrapper_exe_dir : String) : List fallback_lib → String → List String
  | [], _ => []
  | fb :: rest, new_val =>
    if fb.use ≠ 0 then
      (new_val ++ wrapper_exe_dir)
        :: ((new_val ++ wrapper_exe_dir) ++ "/")
        :: (((new_val ++ wrapper_exe_dir) ++ "/") ++ fb.dir)
        :: ((((new_val ++ wrapper_exe_dir) ++ "/") ++ fb.dir) ++ ":")
        :: ld_path_cat_steps wrapper_exe_dir rest
            ((((new_val ++ wrapper_exe_dir) ++ "/") ++ fb.dir) ++ ":")
    else ld_path_cat_steps wrapper_exe_dir rest new_val

/-- Every content the buffer `new_val` has in the second pass of
`set_ld_library_path`: the empty string it starts with, its content after each
`strcat` of the loop, and its content after the closing `strcat` of `old_val` or
the cut of the last character. -/
def ld_path_buffer_states (s : State) : List String :=
  "" :: (ld_path_cat_steps s.wrapper_exe_dir s.fallback_libs "" ++ [ld_path_new_val s])

/-- The conversion of a `size_t` value to a 32-bit `int`. -/
def to_int (x : Nat) : Int :=
  ((x : Int) + 2147483648) % 4294967296 - 2147483648

/-- The conversion of an `int` to a `size_t` of `w` bits. -/
def to_size_t (w : Nat) (x : Int) : Nat :=
  (x % ((2 ^ w : Nat) : Int)).toNat

/-- The first loop of `set_ld_library_path` on machine integers, `len` being a
`size_t` of `w` bits and `wrapper_dir_len` an `int`: every sum is taken modulo
`2 ^ w`. -/
def ld_path_len_loop_c (w : Nat) (wrapper_dir_len : Int) : List fallback_lib → Nat → Nat
  | [], len => len
  | fb :: rest, len =>
    if fb.use ≠ 0 then
      ld_path_len_loop_c w wrapper_dir_len rest
        ((len + ((to_size_t w wrapper_dir_len + strlen fb.dir) % 2 ^ w + 1) % 2 ^ w) % 2 ^ w)
    else ld_path_len_loop_c w wrapper_dir_len rest len

/-- The value of `len` after the first pass of `set_ld_library_path` on machine
integers, `size_t` having `w` bits. -/
def ld_path_len_c (w : Nat) (s : State) : Nat :=
  let len0 : Nat := 1
  let len1 := match ld_path_old_val s with
    | some v => (len0 + (strlen v + 1) % 2 ^ w) % 2 ^ w
    | none => len0
  let wrapper_dir_len := to_int ((strlen s.wrapper_exe_dir + 1) % 2 ^ w)
  ld_path_len_loop_c w wrapper_dir_len s.fallback_libs len1

/-! ## Lemmas on the probe loop -/

theorem loop_result (L : DynLoader) (handle : Handle) (cs : List gcc_version_check) :
    ∀ (i : Nat) (ret : Int) (s : State),
      (get_gcc_version_loop L handle cs i ret s).1
        = match last_probe_from i (cs.take (first_unresolved L handle cs)) with
          | some j => (j : Int)
          | none => ret := by
  induction cs with
  | nil => intro i ret s; simp [get_gcc_version_loop, last_probe_from]
  | cons c rest ih =>
    intro i ret s
    cases hc : c.fn_name with
    | none =>
      have hu : tier_unresolved L handle c = false := by simp [tier_unresolved, hc]
      have hp : tier_has_probe c = false := by simp [tier_has_probe, hc]
      simp only [get_gcc_version_loop, hc, first_unresolved, List.findIdx_cons, hu,
        cond_false, List.take_succ_cons]
      rw [ih]
      simp [last_probe_from, first_unresolved, hp]
    | some fn =>
      have hp : tier_has_probe c = true := by simp [tier_has_probe, hc]
      by_cases hf : L.dlvsym handle fn c.fn_version = true
      · have hu : tier_unresolved L handle c = false := by simp [tier_unresolved, hc, hf]
        simp only [get_gcc_version_loop, hc, hf, if_true, first_unresolved,
          List.findIdx_cons, hu, cond_false, List.take_succ_cons]
        rw [ih]
        simp only [last_probe_from, first_unresolved, List.enumFrom_cons, List.filter_cons,
          hp, if_true, List.map_cons, List.getLast?_cons]
        cases (List.map Prod.fst (List.filter (fun p => tier_has_probe p.2)
          (List.enumFrom (i + 1) (List.take (List.findIdx (tier_unresolved L handle) rest)
            rest)))).getLast? <;> simp
      · have hu : tier_unresolved L handle c = true := by simp [tier_unresolved, hc, hf]
        simp [get_gcc_version_loop, hc, hf, first_unresolved, List.findIdx_cons, hu,
          last_probe_from]

theorem loop_state (L : DynLoader) (handle : Handle) (cs : List gcc_version_check) :
    ∀ (i : Nat) (ret : Int) (s : State),
      (get_gcc_version_loop L handle cs i ret s).2
        = { s with dl := s.dl ++ scan_events L handle cs } := by
  induction cs with
  | nil => intro i ret s; simp [get_gcc_version_loop, scan_events, probe_events, first_unresolved]
  | cons c rest ih =>
    intro i ret s
    cases hc : c.fn_name with
    | none =>
      have hu : tier_unresolved L handle c = false := by simp [tier_unresolved, hc]
      simp only [get_gcc_version_loop, hc]
      rw [ih]
      simp [scan_events, probe_events, first_unresolved, List.findIdx_cons, hu, hc]
    | some fn =>
      by_cases hf : L.dlvsym handle fn c.fn_version = true
      · have hu : tier_unresolved L handle c = false := by simp [tier_unresolved, hc, hf]
        simp only [get_gcc_version_loop, hc, hf, if_true]
        rw [ih]
        simp [scan_events, probe_events, first_unresolved, List.findIdx_cons, hu, hc, hf,
          State.record]
      · have hu : tier_unresolved L handle c = true := by simp [tier_unresolved, hc, hf]
        simp [get_gcc_version_loop, hc, hf, scan_events, probe_events, first_unresolved,
          List.findIdx_cons, hu, State.record]

theorem get_gcc_version_result (L : DynLoader) (libpath : String)
    (checks : List gcc_version_check) (num_checks : Int) (s : State) :
    (get_gcc_version L libpath checks num_checks s).1
      = probe_spec L libpath checks num_checks := by
  unfold get_gcc_version probe_spec
  cases h : L.dlopen libpath with
  | none => simp
  | some handle => simp [loop_result, last_probe_index]

theorem get_gcc_version_state (L : DynLoader) (libpath : String)
    (checks : List gcc_version_check) (num_checks : Int) (s : State) :
    (get_gcc_version L libpath checks num_checks s).2
      = match L.dlopen libpath with
        | none =>
          { s with
            dl := s.dl ++ [DlEvent.dlopen libpath none, DlEvent.dlerror],
            stderr := s.stderr
              ++ ["couldn't dlopen() " ++ libpath ++ " : " ++ L.dlerror libpath ++ "\n"] }
        | some handle =>
          { s with
            dl := s.dl ++ DlEvent.dlopen libpath (some handle)
              :: (scan_events L handle (checks.take num_checks.toNat)
                ++ [DlEvent.dlclose handle]) } := by
  unfold get_gcc_version
  cases h : L.dlopen libpath with
  | none => simp [State.record, eprintf]
  | some handle => simp [loop_state, State.record]

/-- When the tier at position `k` of the remaining tiers resolves, the one after
it does not, and no earlier tier is unresolved, the loop returns the index of
that tier. -/
theorem loop_stops_after (L : DynLoader) (handle : Handle) :
    ∀ (cs : List gcc_version_check) (k i : Nat) (ret : Int) (s : State)
      (ck ck1 : gcc_version_check),
      cs[k]? = some ck → tier_has_probe ck = true → tier_unresolved L handle ck = false →
      cs[k + 1]? = some ck1 → tier_unresolved L handle ck1 = true →
      (∀ j c, j < k → cs[j]? = some c → tier_unresolved L handle c = false) →
      (get_gcc_version_loop L handle cs i ret s).1 = ((i + k : Nat) : Int) := by
  intro cs
  induction cs with
  | nil => intro k i ret s ck ck1 hk; simp at hk
  | cons c rest ih =>
    intro k i ret s ck ck1 hk hp hr hk1 hu hbelow
    cases k with
    | zero =>
      simp only [List.getElem?_cons_zero, Option.some.injEq] at hk
      subst hk
      simp only [Nat.zero_add, List.getElem?_cons_succ] at hk1
      cases hc : c.fn_name with
      | none => simp [tier_has_probe, hc] at hp
      | some fn =>
        have hf : L.dlvsym handle fn c.fn_version = true := by
          simpa [tier_unresolved, hc] using hr
        cases rest with
        | nil => simp at hk1
        | cons c1 rest1 =>
          simp only [List.getElem?_cons_zero, Option.some.injEq] at hk1
          subst hk1
          cases hc1 : c1.fn_name with
          | none => simp [tier_unresolved, hc1] at hu
          | some fn1 =>
            have hf1 : L.dlvsym handle fn1 c1.fn_version = false := by
              simpa [tier_unresolved, hc1] using hu
            simp [get_gcc_version_loop, hc, hf, hc1, hf1]
    | succ k1 =>
      simp only [List.getElem?_cons_succ] at hk hk1
      have h0 : tier_unresolved L handle c = false :=
        hbelow 0 c (Nat.succ_pos k1) (by simp)
      have hrest : ∀ j c2, j < k1 → rest[j]? = some c2 →
          tier_unresolved L handle c2 = false := by
        intro j c2 hj hc2
        exact hbelow (j + 1) c2 (Nat.succ_lt_succ hj) (by simpa using hc2)
      have hidx : ((i + 1 + k1 : Nat) : Int) = ((i + (k1 + 1) : Nat) : Int) := by
        congr 1; omega
      cases hc : c.fn_name with
      | none =>
        simp only [get_gcc_version_loop, hc]
        rw [ih k1 (i + 1) ret s ck ck1 hk hp hr hk1 hu hrest, hidx]
      | some fn =>
        have hf : L.dlvsym handle fn c.fn_version = true := by
          simpa [tier_unresolved, hc] using h0
        simp only [get_gcc_version_loop, hc, hf, if_true]
        rw [ih k1 (i + 1) _ _ ck ck1 hk hp hr hk1 hu hrest, hidx]

theorem last_probe_from_cons (i : Nat) (c : gcc_version_check)
    (rest : List gcc_version_check) :
    last_probe_from i (c :: rest)
      = if tier_has_probe c = true then some ((last_probe_from (i + 1) rest).getD i)
        else last_probe_from (i + 1) rest := by
  by_cases hp : tier_has_probe c = true
  · simp [last_probe_from, hp, List.getLast?_cons]
  · simp [last_probe_from, hp]

theorem last_probe_from_none (tiers : List gcc_version_check) :
    ∀ i, last_probe_from i tiers = none →
      ∀ (j : Nat) (c : gcc_version_check), tiers[j]? = some c → tier_has_probe c = false := by
  induction tiers with
  | nil => intro i _ j c hc; simp at hc
  | cons c0 rest ih =>
    intro i h j c hc
    rw [last_probe_from_cons] at h
    by_cases hp : tier_has_probe c0 = true
    · simp [hp] at h
    · simp only [hp, if_false] at h
      cases j with
      | zero =>
        simp only [List.getElem?_cons_zero, Option.some.injEq] at hc
        subst hc
        simpa using hp
      | succ j1 =>
        simp only [List.getElem?_cons_succ] at hc
        exact ih (i + 1) h j1 c hc

theorem last_probe_from_some (tiers : List gcc_version_check) :
    ∀ i j, last_probe_from i tiers = some j →
      ∃ (r : Nat) (c : gcc_version_check), j = i + r ∧ tiers[r]? = some c ∧ tier_has_probe c = true
        ∧ ∀ (m : Nat) (c2 : gcc_version_check), r < m → tiers[m]? = some c2 → tier_has_probe c2 = false := by
  induction tiers with
  | nil => intro i j h; simp [last_probe_from] at h
  | cons c0 rest ih =>
    intro i j h
    rw [last_probe_from_cons] at h
    by_cases hp : tier_has_probe c0 = true
    · simp only [hp, if_true, Option.some.injEq] at h
      cases hl : last_probe_from (i + 1) rest with
      | none =>
        rw [hl] at h
        simp only [Option.getD_none] at h
        refine ⟨0, c0, by omega, by simp, hp, ?_⟩
        intro m c2 hm hc2
        cases m with
        | zero => omega
        | succ m1 =>
          simp only [List.getElem?_cons_succ] at hc2
          exact last_probe_from_none rest (i + 1) hl m1 c2 hc2
      | some j1 =>
        rw [hl] at h
        simp only [Option.getD_some] at h
        obtain ⟨r, c, hj, hc, hpc, hafter⟩ := ih (i + 1) j1 hl
        refine ⟨r + 1, c, by omega, by simpa using hc, hpc, ?_⟩
        intro m c2 hm hc2
        cases m with
        | zero => omega
        | succ m1 =>
          simp only [List.getElem?_cons_succ] at hc2
          exact hafter m1 c2 (by omega) hc2
    · simp only [hp, if_false] at h
      obtain ⟨r, c, hj, hc, hpc, hafter⟩ := ih (i + 1) j h
      refine ⟨r + 1, c, by omega, by simpa using hc, hpc, ?_⟩
      intro m c2 hm hc2
      cases m with
      | zero => omega
      | succ m1 =>
        simp only [List.getElem?_cons_succ] at hc2
        exact hafter m1 c2 (by omega) hc2

theorem getElem?_take_some {α : Type} (xs : List α) (n j : Nat) (x : α)
    (h : (xs.take n)[j]? = some x) : j < n ∧ xs[j]? = some x := by
  rw [List.getElem?_take] at h
  by_cases hj : j < n
  · simpa [hj] using h
  · simp [hj] at h

/-- The logical reading of `last_probe_index` on the tiers before index `f`. -/
theorem last_probe_index_take (tiers : List gcc_version_check) (f : Nat) :
    (last_probe_index (tiers.take f) = -1
      ∧ ∀ (j : Nat) (c : gcc_version_check), j < f → tiers[j]? = some c → tier_has_probe c = false)
    ∨ ∃ (r : Nat) (c : gcc_version_check), last_probe_index (tiers.take f) = (r : Int) ∧ r < f ∧ tiers[r]? = some c
        ∧ tier_has_probe c = true
        ∧ ∀ (m : Nat) (c2 : gcc_version_check), r < m → m < f → tiers[m]? = some c2 → tier_has_probe c2 = false := by
  unfold last_probe_index
  cases hl : last_probe_from 0 (tiers.take f) with
  | none =>
    left
    refine ⟨rfl, ?_⟩
    intro j c hj hc
    refine last_probe_from_none _ 0 hl j c ?_
    rw [List.getElem?_take]
    simp [hj, hc]
  | some j =>
    right
    obtain ⟨r, c, hj, hc, hpc, hafter⟩ := last_probe_from_some _ 0 j hl
    obtain ⟨hrf, hrc⟩ := getElem?_take_some tiers f r c hc
    refine ⟨r, c, by simp [hj], hrf, hrc, hpc, ?_⟩
    intro m c2 hrm hmf hc2
    refine hafter m c2 hrm ?_
    rw [List.getElem?_take]
    simp [hmf, hc2]

/-! ## Lemmas on the semantic version reader -/

theorem get_libsdl2_version_result (L : DynLoader) (path : String) (s : State) :
    (get_libsdl2_version L path s).1 = read_spec L path := by
  unfold get_libsdl2_version read_spec
  cases h : L.dlopen path with
  | none => simp
  | some handle =>
    cases h2 : L.dlsym handle "SDL_GetVersion" with
    | none => simp [h2]
    | some f => simp [h2]

theorem get_libsdl2_version_dl (L : DynLoader) (path : String) (s : State) :
    (get_libsdl2_version L path s).2.dl
      = match L.dlopen path with
        | none => s.dl ++ DlEvent.dlopen path none
            :: (if s.debugOutput ≠ 0 then [DlEvent.dlerror] else [])
        | some handle => s.dl ++ DlEvent.dlopen path (some handle) :: read_events L handle := by
  unfold get_libsdl2_version read_events
  cases h : L.dlopen path with
  | none =>
    by_cases hd : s.debugOutput = 0
    · simp [State.record, dprintf, hd]
    · simp [State.record, dprintf, hd]
  | some handle =>
    cases h2 : L.dlsym handle "SDL_GetVersion" with
    | none => simp [h2, State.record, eprintf]
    | some f => simp [h2, State.record]

theorem get_libsdl2_version_libs (L : DynLoader) (path : String) (s : State) :
    (get_libsdl2_version L path s).2.fallback_libs = s.fallback_libs := by
  unfold get_libsdl2_version
  cases h : L.dlopen path with
  | none =>
    by_cases hd : s.debugOutput = 0
    · simp [State.record, dprintf, hd]
    · simp [State.record, dprintf, hd]
  | some handle =>
    cases h2 : L.dlsym handle "SDL_GetVersion" with
    | none => simp [h2, State.record, eprintf]
    | some f => simp [h2, State.record]

theorem get_gcc_version_libs (L : DynLoader) (libpath : String)
    (checks : List gcc_version_check) (num_checks : Int) (s : State) :
    (get_gcc_version L libpath checks num_checks s).2.fallback_libs = s.fallback_libs := by
  rw [get_gcc_version_state]
  cases h : L.dlopen libpath <;> simp

/-! ## Lemmas on the decision aggregator -/

theorem set_use_getD (libs : List fallback_lib) :
    ∀ (idx : Nat) (d : fallback_lib), idx < libs.length →
      ((set_use libs idx).getD idx d).use = 1 := by
  induction libs with
  | nil => intro idx d h; simp at h
  | cons fb rest ih =>
    intro idx d h
    cases idx with
    | zero => simp [set_use]
    | succ i =>
      have hi : i < rest.length := by simpa using h
      simpa [set_use] using ih i d hi

theorem compare_libstdcpp_libs (HAVE_64_BIT : Bool) (fb_lib_idx : Nat)
    (sys_ver our_ver : Int) (s : State) :
    (compare_libstdcpp HAVE_64_BIT fb_lib_idx sys_ver our_ver s).fallback_libs
      = if our_ver > sys_ver then set_use s.fallback_libs fb_lib_idx
        else s.fallback_libs := by
  unfold compare_libstdcpp
  by_cases h : our_ver > sys_ver <;> by_cases hd : s.debugOutput = 0 <;>
    simp [dprintf, State.fb_set_use, h, hd]

theorem compare_libgcc_libs (HAVE_64_BIT : Bool) (fb_lib_idx : Nat)
    (sys_ver our_ver : Int) (s : State) :
    (compare_libgcc HAVE_64_BIT fb_lib_idx sys_ver our_ver s).fallback_libs
      = if our_ver > sys_ver then set_use s.fallback_libs fb_lib_idx
        else s.fallback_libs := by
  unfold compare_libgcc
  by_cases h : our_ver > sys_ver <;> by_cases hd : s.debugOutput = 0 <;>
    simp [dprintf, State.fb_set_use, h, hd]

theorem compare_libsdl2_libs (fb_lib_idx : Nat) (sdl_sys_ver sdl_our_ver : My_SDL2_version)
    (s : State) :
    (compare_libsdl2 fb_lib_idx sdl_sys_ver sdl_our_ver s).fallback_libs
      = if sdl_our_ver.major ≠ 0
            ∧ (sdl_sys_ver.major ≠ sdl_our_ver.major
              ∨ sdl_sys_ver.minor < sdl_our_ver.minor
              ∨ (sdl_sys_ver.minor = sdl_our_ver.minor
                ∧ sdl_sys_ver.patch < sdl_our_ver.patch))
        then set_use s.fallback_libs fb_lib_idx
        else s.fallback_libs := by
  unfold compare_libsdl2
  by_cases hd : s.debugOutput = 0
  · split_ifs with h <;> simp [dprintf, State.fb_set_use, hd, h]
  · split_ifs with h <;> simp [dprintf, State.fb_set_use, hd, h]

theorem check_libstdcpp_libs (HAVE_64_BIT : Bool) (L : DynLoader) (fb_lib_idx : Nat)
    (s : State) :
    (check_libstdcpp HAVE_64_BIT L fb_lib_idx s).fallback_libs
      = if ordinal_prefers L (libstdcpp_version_checks HAVE_64_BIT) NUM_STDCPP_GCC_VERSIONS
            (s.fb fb_lib_idx)
        then set_use s.fallback_libs fb_lib_idx
        else s.fallback_libs := by
  unfold check_libstdcpp get_libstdcpp_version ordinal_prefers
  rw [compare_libstdcpp_libs]
  simp only [get_gcc_version_result, get_gcc_version_libs, State.fb]

theorem check_libgcc_libs (HAVE_64_BIT : Bool) (L : DynLoader) (fb_lib_idx : Nat)
    (s : State) :
    (check_libgcc HAVE_64_BIT L fb_lib_idx s).fallback_libs
      = if ordinal_prefers L (libgcc_version_checks HAVE_64_BIT) NUM_LIBGCC_VERSIONS
            (s.fb fb_lib_idx)
        then set_use s.fallback_libs fb_lib_idx
        else s.fallback_libs := by
  unfold check_libgcc get_libgcc_version ordinal_prefers
  rw [compare_libgcc_libs]
  simp only [get_gcc_version_result, get_gcc_version_libs, State.fb]

theorem check_libsdl2_libs (L : DynLoader) (fb_lib_idx : Nat) (s : State) :
    (check_libsdl2 L fb_lib_idx s).fallback_libs
      = if semver_prefers L (s.fb fb_lib_idx) then set_use s.fallback_libs fb_lib_idx
        else s.fallback_libs := by
  unfold check_libsdl2 semver_prefers semver_override
  rw [compare_libsdl2_libs]
  simp only [get_libsdl2_version_result, get_libsdl2_version_libs, State.fb]

theorem check_libcurl4_libs (L : DynLoader) (fb_lib_idx : Nat) (s : State) :
    (check_libcurl4 L fb_lib_idx s).fallback_libs
      = if presence_prefers L (s.fb fb_lib_idx) then set_use s.fallback_libs fb_lib_idx
        else s.fallback_libs := by
  have hcases : L.dlopen (s.fb fb_lib_idx).name = none
      ∨ ∃ handle, L.dlopen (s.fb fb_lib_idx).name = some handle := by
    cases L.dlopen (s.fb fb_lib_idx).name <;> simp
  rcases hcases with h | ⟨handle, h⟩ <;>
    by_cases hd : s.debugOutput = 0 <;>
    simp [check_libcurl4, presence_prefers, dprintf, State.fb_set_use, State.record, hd, h]

/-- The array `fallback_libs` after `check_fallback_libs`, started on the array
as initialised: each entry carries the outcome of its own comparison. -/
theorem check_fallback_libs_libs (HAVE_64_BIT : Bool) (L : DynLoader) (s : State)
    (hs : s.fallback_libs = fallback_libs) :
    (check_fallback_libs HAVE_64_BIT L s).2.fallback_libs
      = [ ⟨"libstdc++.so.6", FALLBACK_DIR_STDCPP,
            if ordinal_prefers L (libstdcpp_version_checks HAVE_64_BIT)
                NUM_STDCPP_GCC_VERSIONS ⟨"libstdc++.so.6", FALLBACK_DIR_STDCPP, 0⟩
            then 1 else 0⟩,
          ⟨"libgcc_s.so.1", FALLBACK_DIR_GCC,
            if ordinal_prefers L (libgcc_version_checks HAVE_64_BIT)
                NUM_LIBGCC_VERSIONS ⟨"libgcc_s.so.1", FALLBACK_DIR_GCC, 0⟩
            then 1 else 0⟩,
          ⟨"libSDL2-2.0.so.0", FALLBACK_DIR_SDL2,
            if semver_prefers L ⟨"libSDL2-2.0.so.0", FALLBACK_DIR_SDL2, 0⟩ then 1 else 0⟩,
          ⟨"libcurl.so.4", FALLBACK_DIR_CURL,
            if presence_prefers L ⟨"libcurl.so.4", FALLBACK_DIR_CURL, 0⟩ then 1 else 0⟩ ] := by
  by_cases h0 : ordinal_prefers L (libstdcpp_version_checks HAVE_64_BIT)
      NUM_STDCPP_GCC_VERSIONS ⟨"libstdc++.so.6", FALLBACK_DIR_STDCPP, 0⟩ <;>
  by_cases h1 : ordinal_prefers L (libgcc_version_checks HAVE_64_BIT)
      NUM_LIBGCC_VERSIONS ⟨"libgcc_s.so.1", FALLBACK_DIR_GCC, 0⟩ <;>
  by_cases h2 : semver_prefers L ⟨"libSDL2-2.0.so.0", FALLBACK_DIR_SDL2, 0⟩ <;>
  by_cases h3 : presence_prefers L ⟨"libcurl.so.4", FALLBACK_DIR_CURL, 0⟩ <;>
  simp [check_fallback_libs, check_libcurl4_libs, check_libsdl2_libs, check_libgcc_libs,
    check_libstdcpp_libs, State.fb, hs, fallback_libs, set_use, h0, h1, h2, h3]

theorem bundled_path_stdcpp :
    snprintf_local_path FALLBACK_DIR_STDCPP "libstdc++.so.6" = "libs/stdcpp/libstdc++.so.6" := by
  decide

theorem bundled_path_gcc :
    snprintf_local_path FALLBACK_DIR_GCC "libgcc_s.so.1" = "libs/gcc/libgcc_s.so.1" := by
  decide

theorem bundled_path_sdl2 :
    snprintf_local_path FALLBACK_DIR_SDL2 "libSDL2-2.0.so.0" = "libs/sdl2/libSDL2-2.0.so.0" := by
  decide

theorem compare_libstdcpp_use (HAVE_64_BIT : Bool) (fb_lib_idx : Nat) (sys_ver our_ver : Int)
    (s : State) (hidx : fb_lib_idx < s.fallback_libs.length)
    (huse : (s.fb fb_lib_idx).use = 0) :
    ((compare_libstdcpp HAVE_64_BIT fb_lib_idx sys_ver our_ver s).fb fb_lib_idx).use
      = if our_ver > sys_ver then 1 else 0 := by
  unfold State.fb at huse ⊢
  rw [compare_libstdcpp_libs]
  split_ifs with h
  · exact set_use_getD _ _ _ hidx
  · exact huse

theorem compare_libgcc_use (HAVE_64_BIT : Bool) (fb_lib_idx : Nat) (sys_ver our_ver : Int)
    (s : State) (hidx : fb_lib_idx < s.fallback_libs.length)
    (huse : (s.fb fb_lib_idx).use = 0) :
    ((compare_libgcc HAVE_64_BIT fb_lib_idx sys_ver our_ver s).fb fb_lib_idx).use
      = if our_ver > sys_ver then 1 else 0 := by
  unfold State.fb at huse ⊢
  rw [compare_libgcc_libs]
  split_ifs with h
  · exact set_use_getD _ _ _ hidx
  · exact huse

theorem compare_libsdl2_use (fb_lib_idx : Nat) (sys our : My_SDL2_version)
    (s : State) (hidx : fb_lib_idx < s.fallback_libs.length)
    (huse : (s.fb fb_lib_idx).use = 0) :
    ((compare_libsdl2 fb_lib_idx sys our s).fb fb_lib_idx).use
      = if semver_override sys our then 1 else 0 := by
  unfold State.fb at huse ⊢
  rw [compare_libsdl2_libs]
  unfold semver_override
  split_ifs with h
  · exact set_use_getD _ _ _ hidx
  · exact huse

/-! ## Lemmas on loader traces -/

theorem get_gcc_version_dl (L : DynLoader) (libpath : String)
    (checks : List gcc_version_check) (num_checks : Int) (s : State) :
    (get_gcc_version L libpath checks num_checks s).2.dl
      = s.dl ++ probe_trace L libpath checks num_checks := by
  rw [get_gcc_version_state]
  unfold probe_trace
  cases h : L.dlopen libpath <;> simp

theorem get_gcc_version_debugOutput (L : DynLoader) (libpath : String)
    (checks : List gcc_version_check) (num_checks : Int) (s : State) :
    (get_gcc_version L libpath checks num_checks s).2.debugOutput = s.debugOutput := by
  rw [get_gcc_version_state]
  cases h : L.dlopen libpath <;> simp

theorem get_libsdl2_version_trace (L : DynLoader) (path : String) (s : State) :
    (get_libsdl2_version L path s).2.dl = s.dl ++ read_trace L path s.debugOutput := by
  rw [get_libsdl2_version_dl]
  unfold read_trace
  cases h : L.dlopen path <;> simp

theorem get_libsdl2_version_debugOutput (L : DynLoader) (path : String) (s : State) :
    (get_libsdl2_version L path s).2.debugOutput = s.debugOutput := by
  unfold get_libsdl2_version
  cases h : L.dlopen path with
  | none =>
    by_cases hd : s.debugOutput = 0
    · simp [State.record, dprintf, hd]
    · simp [State.record, dprintf, hd]
  | some handle =>
    cases h2 : L.dlsym handle "SDL_GetVersion" with
    | none => simp [h2, State.record, eprintf]
    | some f => simp [h2, State.record]

theorem check_libcurl4_dl (L : DynLoader) (fb_lib_idx : Nat) (s : State) :
    (check_libcurl4 L fb_lib_idx s).dl
      = s.dl ++ presence_trace L (s.fb fb_lib_idx).name := by
  have hcases : L.dlopen (s.fb fb_lib_idx).name = none
      ∨ ∃ handle, L.dlopen (s.fb fb_lib_idx).name = some handle := by
    cases L.dlopen (s.fb fb_lib_idx).name <;> simp
  rcases hcases with h | ⟨handle, h⟩ <;>
    by_cases hd : s.debugOutput = 0 <;>
    simp [check_libcurl4, presence_trace, dprintf, State.fb_set_use, State.record, hd, h]

theorem acquisitions_append (a b : List DlEvent) :
    acquisitions (a ++ b) = acquisitions a + acquisitions b := by
  simp [acquisitions, List.countP_append]

theorem releases_append (a b : List DlEvent) :
    releases (a ++ b) = releases a + releases b := by
  simp [releases, List.countP_append]

theorem held_after_append (held : List Handle) (a b : List DlEvent) :
    held_after held (a ++ b) = held_after (held_after held a) b := by
  simp [held_after, List.foldl_append]

theorem probe_events_neutral (L : DynLoader) (handle : Handle)
    (tiers : List gcc_version_check) :
    acquisitions (probe_events L handle tiers) = 0
    ∧ releases (probe_events L handle tiers) = 0
    ∧ ∀ held, held_after held (probe_events L handle tiers) = held := by
  induction tiers with
  | nil => simp [probe_events, acquisitions, releases, held_after]
  | cons c rest ih =>
    obtain ⟨ha, hr, hh⟩ := ih
    cases hc : c.fn_name with
    | none =>
      have e : probe_events L handle (c :: rest) = probe_events L handle rest := by
        simp [probe_events, hc]
      rw [e]
      exact ⟨ha, hr, hh⟩
    | some fn =>
      have e : probe_events L handle (c :: rest)
          = [DlEvent.dlvsym handle fn c.fn_version (L.dlvsym handle fn c.fn_version)]
            ++ probe_events L handle rest := by
        simp [probe_events, hc]
      rw [e, acquisitions_append, releases_append, ha, hr]
      refine ⟨by simp [acquisitions], by simp [releases], ?_⟩
      intro held
      rw [held_after_append, hh]
      simp [held_after, held_step]

theorem scan_events_neutral (L : DynLoader) (handle : Handle)
    (tiers : List gcc_version_check) :
    acquisitions (scan_events L handle tiers) = 0
    ∧ releases (scan_events L handle tiers) = 0
    ∧ ∀ held, held_after held (scan_events L handle tiers) = held := by
  obtain ⟨ha, hr, hh⟩ := probe_events_neutral L handle
    (tiers.take (first_unresolved L handle tiers + 1))
  unfold scan_events
  rw [acquisitions_append, releases_append, ha, hr]
  refine ⟨?_, ?_, ?_⟩
  · split_ifs <;> simp [acquisitions]
  · split_ifs <;> simp [releases]
  · intro held
    rw [held_after_append, hh]
    split_ifs <;> simp [held_after, held_step]

/-- A trace is balanced when it acquires as many handles as it releases and
leaves held exactly the handles held before it. -/
theorem probe_trace_balanced (L : DynLoader) (libpath : String)
    (checks : List gcc_version_check) (num_checks : Int) :
    acquisitions (probe_trace L libpath checks num_checks)
      = releases (probe_trace L libpath checks num_checks)
    ∧ ∀ held, held_after held (probe_trace L libpath checks num_checks) = held := by
  unfold probe_trace
  cases h : L.dlopen libpath with
  | none => simp [acquisitions, releases, held_after, held_step]
  | some handle =>
    obtain ⟨ha, hr, hh⟩ := scan_events_neutral L handle (checks.take num_checks.toNat)
    have e : DlEvent.dlopen libpath (some handle)
        :: (scan_events L handle (checks.take num_checks.toNat) ++ [DlEvent.dlclose handle])
        = [DlEvent.dlopen libpath (some handle)]
          ++ (scan_events L handle (checks.take num_checks.toNat)
            ++ [DlEvent.dlclose handle]) := rfl
    simp only [e, acquisitions_append, releases_append, ha, hr, held_after_append, hh]
    refine ⟨by simp [acquisitions, releases], ?_⟩
    intro held
    simp [held_after, held_step]

theorem read_trace_balanced (L : DynLoader) (path : String) (debugOutput : Int) :
    acquisitions (read_trace L path debugOutput) = releases (read_trace L path debugOutput)
    ∧ ∀ held, held_after held (read_trace L path debugOutput) = held := by
  unfold read_trace
  cases h : L.dlopen path with
  | none => split_ifs <;> simp [acquisitions, releases, held_after, held_step]
  | some handle =>
    unfold read_events
    cases h2 : L.dlsym handle "SDL_GetVersion" <;>
      simp [acquisitions, releases, held_after, held_step, h2]

theorem presence_trace_balanced (L : DynLoader) (name : String) :
    acquisitions (presence_trace L name) = releases (presence_trace L name)
    ∧ ∀ held, held_after held (presence_trace L name) = held := by
  unfold presence_trace
  cases h : L.dlopen name <;> simp [acquisitions, releases, held_after, held_step]

/-- Every operation appends a balanced trace. -/
theorem op_balanced (L : DynLoader) (op : LoaderOp) (s : State) :
    ∃ seg, (op.run L s).dl = s.dl ++ seg ∧ acquisitions seg = releases seg
      ∧ ∀ held, held_after held seg = held := by
  cases op with
  | probe libpath checks num_checks =>
    exact ⟨_, get_gcc_version_dl L libpath checks num_checks s,
      probe_trace_balanced L libpath checks num_checks⟩
  | read path =>
    exact ⟨_, get_libsdl2_version_trace L path s, read_trace_balanced L path s.debugOutput⟩
  | presence fb_lib_idx =>
    exact ⟨_, check_libcurl4_dl L fb_lib_idx s, presence_trace_balanced L _⟩

/-! ## The trace of the decision aggregator -/

theorem dprintf_dl (s : State) (msg : String) : (dprintf s msg).dl = s.dl := by
  unfold dprintf; split_ifs <;> rfl

theorem dprintf_debugOutput (s : State) (msg : String) :
    (dprintf s msg).debugOutput = s.debugOutput := by
  unfold dprintf; split_ifs <;> rfl

theorem compare_libstdcpp_dl (HAVE_64_BIT : Bool) (fb_lib_idx : Nat) (sys_ver our_ver : Int)
    (s : State) :
    (compare_libstdcpp HAVE_64_BIT fb_lib_idx sys_ver our_ver s).dl = s.dl
    ∧ (compare_libstdcpp HAVE_64_BIT fb_lib_idx sys_ver our_ver s).debugOutput
        = s.debugOutput := by
  unfold compare_libstdcpp
  split_ifs <;> simp [State.fb_set_use, dprintf_dl, dprintf_debugOutput]

theorem compare_libgcc_dl (HAVE_64_BIT : Bool) (fb_lib_idx : Nat) (sys_ver our_ver : Int)
    (s : State) :
    (compare_libgcc HAVE_64_BIT fb_lib_idx sys_ver our_ver s).dl = s.dl
    ∧ (compare_libgcc HAVE_64_BIT fb_lib_idx sys_ver our_ver s).debugOutput
        = s.debugOutput := by
  unfold compare_libgcc
  split_ifs <;> simp [State.fb_set_use, dprintf_dl, dprintf_debugOutput]

theorem compare_libsdl2_dl (fb_lib_idx : Nat) (sys our : My_SDL2_version) (s : State) :
    (compare_libsdl2 fb_lib_idx sys our s).dl = s.dl
    ∧ (compare_libsdl2 fb_lib_idx sys our s).debugOutput = s.debugOutput := by
  unfold compare_libsdl2
  split_ifs <;> simp [State.fb_set_use, dprintf_dl, dprintf_debugOutput]

theorem check_libstdcpp_dl (HAVE_64_BIT : Bool) (L : DynLoader) (fb_lib_idx : Nat)
    (s : State) :
    (check_libstdcpp HAVE_64_BIT L fb_lib_idx s).dl
      = s.dl ++ (probe_trace L (s.fb fb_lib_idx).name
            (libstdcpp_version_checks HAVE_64_BIT) NUM_STDCPP_GCC_VERSIONS
          ++ probe_trace L (snprintf_local_path (s.fb fb_lib_idx).dir (s.fb fb_lib_idx).name)
            (libstdcpp_version_checks HAVE_64_BIT) NUM_STDCPP_GCC_VERSIONS)
    ∧ (check_libstdcpp HAVE_64_BIT L fb_lib_idx s).debugOutput = s.debugOutput := by
  unfold check_libstdcpp get_libstdcpp_version
  simp only [(compare_libstdcpp_dl _ _ _ _ _).1, (compare_libstdcpp_dl _ _ _ _ _).2,
    get_gcc_version_dl, get_gcc_version_debugOutput, get_gcc_version_libs, State.fb,
    List.append_assoc, and_self]

theorem check_libgcc_dl (HAVE_64_BIT : Bool) (L : DynLoader) (fb_lib_idx : Nat)
    (s : State) :
    (check_libgcc HAVE_64_BIT L fb_lib_idx s).dl
      = s.dl ++ (probe_trace L (s.fb fb_lib_idx).name
            (libgcc_version_checks HAVE_64_BIT) NUM_LIBGCC_VERSIONS
          ++ probe_trace L (snprintf_local_path (s.fb fb_lib_idx).dir (s.fb fb_lib_idx).name)
            (libgcc_version_checks HAVE_64_BIT) NUM_LIBGCC_VERSIONS)
    ∧ (check_libgcc HAVE_64_BIT L fb_lib_idx s).debugOutput = s.debugOutput := by
  unfold check_libgcc get_libgcc_version
  simp only [(compare_libgcc_dl _ _ _ _ _).1, (compare_libgcc_dl _ _ _ _ _).2,
    get_gcc_version_dl, get_gcc_version_debugOutput, get_gcc_version_libs, State.fb,
    List.append_assoc, and_self]

theorem check_libsdl2_dl (L : DynLoader) (fb_lib_idx : Nat) (s : State) :
    (check_libsdl2 L fb_lib_idx s).dl
      = s.dl ++ (read_trace L (s.fb fb_lib_idx).name s.debugOutput
          ++ read_trace L (snprintf_local_path (s.fb fb_lib_idx).dir (s.fb fb_lib_idx).name)
            s.debugOutput)
    ∧ (check_libsdl2 L fb_lib_idx s).debugOutput = s.debugOutput := by
  unfold check_libsdl2
  simp only [(compare_libsdl2_dl _ _ _ _).1, (compare_libsdl2_dl _ _ _ _).2,
    get_libsdl2_version_trace, get_libsdl2_version_debugOutput, get_libsdl2_version_libs,
    State.fb, List.append_assoc, and_self]

/-- The loader calls of `check_fallback_libs`, started on the array as
initialised: the probes, reads and presence check of the four entries in declared
order, system copy first. -/
theorem check_fallback_libs_dl (HAVE_64_BIT : Bool) (L : DynLoader) (s : State)
    (hs : s.fallback_libs = fallback_libs) :
    (check_fallback_libs HAVE_64_BIT L s).2.dl
      = s.dl
        ++ (probe_trace L "libstdc++.so.6"
              (libstdcpp_version_checks HAVE_64_BIT) NUM_STDCPP_GCC_VERSIONS
          ++ (probe_trace L "libs/stdcpp/libstdc++.so.6"
              (libstdcpp_version_checks HAVE_64_BIT) NUM_STDCPP_GCC_VERSIONS
          ++ (probe_trace L "libgcc_s.so.1"
              (libgcc_version_checks HAVE_64_BIT) NUM_LIBGCC_VERSIONS
          ++ (probe_trace L "libs/gcc/libgcc_s.so.1"
              (libgcc_version_checks HAVE_64_BIT) NUM_LIBGCC_VERSIONS
          ++ (read_trace L "libSDL2-2.0.so.0" s.debugOutput
          ++ (read_trace L "libs/sdl2/libSDL2-2.0.so.0" s.debugOutput
          ++ presence_trace L "libcurl.so.4")))))) := by
  by_cases h0 : ordinal_prefers L (libstdcpp_version_checks HAVE_64_BIT)
      NUM_STDCPP_GCC_VERSIONS ⟨"libstdc++.so.6", FALLBACK_DIR_STDCPP, 0⟩ <;>
  by_cases h1 : ordinal_prefers L (libgcc_version_checks HAVE_64_BIT)
      NUM_LIBGCC_VERSIONS ⟨"libgcc_s.so.1", FALLBACK_DIR_GCC, 0⟩ <;>
  by_cases h2 : semver_prefers L ⟨"libSDL2-2.0.so.0", FALLBACK_DIR_SDL2, 0⟩ <;>
  simp [check_fallback_libs, check_libcurl4_dl, (check_libsdl2_dl _ _ _).1,
    (check_libsdl2_dl _ _ _).2, (check_libgcc_dl _ _ _ _).1, (check_libgcc_dl _ _ _ _).2,
    (check_libstdcpp_dl _ _ _ _).1, (check_libstdcpp_dl _ _ _ _).2,
    check_libsdl2_libs, check_libgcc_libs, check_libstdcpp_libs, State.fb, hs,
    fallback_libs, set_use, h0, h1, h2, bundled_path_stdcpp, bundled_path_gcc,
    bundled_path_sdl2]

/-! ## Lemmas on the path composer -/

theorem ld_path_cat_loop_eq (dir : String) (libs : List fallback_lib) :
    ∀ new_val : String,
      ld_path_cat_loop dir libs new_val
        = ((libs.filter (fun fb => fb.use ≠ 0)).map (fun fb => dir ++ "/" ++ fb.dir)).foldl
            (fun r q => r ++ q ++ ":") new_val := by
  induction libs with
  | nil => intro new_val; simp [ld_path_cat_loop]
  | cons fb rest ih =>
    intro new_val
    by_cases h : fb.use = 0
    · simp [ld_path_cat_loop, h, ih]
    · simp [ld_path_cat_loop, h, ih, String.append_assoc]

theorem foldl_colon_eq_go (ps : List String) :
    ∀ acc p : String,
      ps.foldl (fun r q => r ++ q ++ ":") (acc ++ p ++ ":")
        = String.intercalate.go (acc ++ p) ":" ps ++ ":" := by
  induction ps with
  | nil => intro acc p; simp [String.intercalate.go]
  | cons q rest ih =>
    intro acc p
    simp only [List.foldl_cons, String.intercalate.go]
    rw [ih (acc ++ p ++ ":") q]

theorem foldl_colon_eq_intercalate (ps : List String) (h : ps ≠ []) :
    ps.foldl (fun r q => r ++ q ++ ":") "" = String.intercalate ":" ps ++ ":" := by
  cases ps with
  | nil => exact absurd rfl h
  | cons p rest =>
    have := foldl_colon_eq_go rest "" p
    simpa [String.intercalate] using this

theorem cut_last_colon (x : String) : cut_last (x ++ ":") = x := by
  apply String.ext
  show (x.data ++ [':']).dropLast = x.data
  simp

theorem ld_path_len_loop_count (w : Nat) (libs : List fallback_lib) :
    ∀ acc : Nat × Nat,
      (ld_path_len_loop w libs acc).2
        = acc.2 + (libs.filter (fun fb => fb.use ≠ 0)).length := by
  induction libs with
  | nil => intro acc; simp [ld_path_len_loop]
  | cons fb rest ih =>
    intro acc
    obtain ⟨len, n⟩ := acc
    by_cases h : fb.use = 0
    · simp [ld_path_len_loop, h, ih]
    · simp [ld_path_len_loop, h, ih]; omega

theorem bundled_dirs_ne_nil (s : State) (hused : ∃ fb ∈ s.fallback_libs, fb.use ≠ 0) :
    bundled_dirs s ≠ [] := by
  obtain ⟨fb, hmem, hne⟩ := hused
  have hin : fb ∈ s.fallback_libs.filter (fun fb => fb.use ≠ 0) := by
    simp [List.mem_filter, hmem, hne]
  intro hnil
  have hlen := congrArg List.length hnil
  simp only [bundled_dirs, List.length_map, List.length_nil] at hlen
  have hpos := List.length_pos_of_mem hin
  omega

/-! ## Lemmas on the buffer of the path composer -/

theorem ld_path_cat_loop_grows (dir : String) (libs : List fallback_lib) :
    ∀ new_val : String, strlen new_val ≤ strlen (ld_path_cat_loop dir libs new_val) := by
  induction libs with
  | nil => intro new_val; simp [ld_path_cat_loop]
  | cons fb rest ih =>
    intro new_val
    by_cases h : fb.use = 0
    · simpa [ld_path_cat_loop, h] using ih new_val
    · have h1 := ih ((((new_val ++ dir) ++ "/") ++ fb.dir) ++ ":")
      simp only [strlen, String.length_append] at h1 ⊢
      simp only [ld_path_cat_loop, h, ne_eq, not_false_eq_true, if_true]
      omega

theorem ld_path_cat_steps_bound (dir : String) (libs : List fallback_lib) :
    ∀ new_val : String, ∀ buf ∈ ld_path_cat_steps dir libs new_val,
      strlen buf ≤ strlen (ld_path_cat_loop dir libs new_val) := by
  induction libs with
  | nil => intro new_val buf hbuf; simp [ld_path_cat_steps] at hbuf
  | cons fb rest ih =>
    intro new_val buf hbuf
    by_cases h : fb.use = 0
    · simp only [ld_path_cat_steps, ld_path_cat_loop, h, ne_eq, not_true_eq_false,
        if_false] at hbuf ⊢
      exact ih new_val buf hbuf
    · simp only [ld_path_cat_steps, ld_path_cat_loop, h, ne_eq, not_false_eq_true,
        if_true, List.mem_cons] at hbuf ⊢
      have hgrow := ld_path_cat_loop_grows dir rest ((((new_val ++ dir) ++ "/") ++ fb.dir) ++ ":")
      simp only [strlen, String.length_append] at hgrow ⊢
      rcases hbuf with hb | hb | hb | hb | hb
      · subst hb; simp only [String.length_append]; omega
      · subst hb; simp only [String.length_append]; omega
      · subst hb; simp only [String.length_append]; omega
      · subst hb; simp only [String.length_append]; omega
      · have := ih _ buf hb
        simpa [strlen] using this

theorem ld_path_cat_loop_mem_steps (dir : String) (libs : List fallback_lib) :
    ∀ new_val : String,
      ld_path_cat_loop dir libs new_val ∈ new_val :: ld_path_cat_steps dir libs new_val := by
  induction libs with
  | nil => intro new_val; simp [ld_path_cat_loop]
  | cons fb rest ih =>
    intro new_val
    by_cases h : fb.use = 0
    · simpa [ld_path_cat_steps, ld_path_cat_loop, h] using ih new_val
    · have h1 := ih ((((new_val ++ dir) ++ "/") ++ fb.dir) ++ ":")
      simp only [ld_path_cat_steps, ld_path_cat_loop, h, ne_eq, not_false_eq_true, if_true,
        List.mem_cons] at h1 ⊢
      rcases h1 with h1 | h1
      · right; right; right; right; left; exact h1
      · right; right; right; right; right; exact h1

/-- The first pass counts exactly the characters the second loop appends. -/
theorem ld_path_len_loop_exact (dir : String) (libs : List fallback_lib) :
    ∀ (new_val : String) (len n : Nat),
      (ld_path_len_loop (strlen dir + 1) libs (len, n)).1 + strlen new_val
        = len + strlen (ld_path_cat_loop dir libs new_val) := by
  induction libs with
  | nil => intro new_val len n; simp [ld_path_len_loop, ld_path_cat_loop]
  | cons fb rest ih =>
    intro new_val len n
    by_cases h : fb.use = 0
    · simpa [ld_path_len_loop, ld_path_cat_loop, h] using ih new_val len n
    · have h1 := ih ((((new_val ++ dir) ++ "/") ++ fb.dir) ++ ":")
        (len + (strlen dir + 1 + strlen fb.dir + 1)) (n + 1)
      have hslash : ("/" : String).length = 1 := rfl
      have hcolon : (":" : String).length = 1 := rfl
      simp only [strlen, String.length_append, hslash, hcolon] at h1 ⊢
      simp only [ld_path_len_loop, ld_path_cat_loop, h, ne_eq, not_false_eq_true, if_true,
        strlen]
      omega

theorem strlen_cut_last (x : String) : strlen (cut_last x) = strlen x - 1 := by
  show (x.data.dropLast).length = x.data.length - 1
  simp

theorem ld_path_len_loop_ge (dir : String) (libs : List fallback_lib) (len n : Nat) :
    len ≤ (ld_path_len_loop (strlen dir + 1) libs (len, n)).1 := by
  have h := ld_path_len_loop_exact dir libs "" len n
  have hempty : strlen "" = 0 := rfl
  rw [hempty] at h
  omega

theorem to_size_t_to_int (w d : Nat) (hw : 32 ≤ w) (hd : d < 2147483648) :
    to_size_t w (to_int (d % 2 ^ w)) = d := by
  have hpow : 2 ^ 32 ≤ 2 ^ w := Nat.pow_le_pow_right (by decide) hw
  have h32 : (2 : Nat) ^ 32 = 4294967296 := by norm_num
  have hlt : d < 2 ^ w := by omega
  rw [Nat.mod_eq_of_lt hlt]
  have hint : to_int d = (d : Int) := by
    unfold to_int
    omega
  rw [hint]
  unfold to_size_t
  rw [Int.emod_eq_of_lt (by omega) (by exact_mod_cast hlt)]
  simp

/-- The machine computation of the first loop gives the same `len` whenever
that `len` fits a `size_t` and `wrapper_dir_len` fits an `int`. -/
theorem ld_path_len_loop_c_eq (w : Nat) (dir : String) (hw : 32 ≤ w)
    (hd : strlen dir + 1 < 2147483648) (libs : List fallback_lib) :
    ∀ (len n : Nat), (ld_path_len_loop (strlen dir + 1) libs (len, n)).1 < 2 ^ w →
      ld_path_len_loop_c w (to_int ((strlen dir + 1) % 2 ^ w)) libs len
        = (ld_path_len_loop (strlen dir + 1) libs (len, n)).1 := by
  induction libs with
  | nil => intro len n _; simp [ld_path_len_loop, ld_path_len_loop_c]
  | cons fb rest ih =>
    intro len n hfit
    by_cases h : fb.use = 0
    · simp only [ld_path_len_loop, ld_path_len_loop_c, h, ne_eq, not_true_eq_false,
        if_false] at hfit ⊢
      exact ih len n hfit
    · simp only [ld_path_len_loop, ld_path_len_loop_c, h, ne_eq, not_false_eq_true,
        if_true] at hfit ⊢
      have hge := ld_path_len_loop_ge dir rest
        (len + (strlen dir + 1 + strlen fb.dir + 1)) (n + 1)
      rw [to_size_t_to_int w (strlen dir + 1) hw hd]
      rw [Nat.mod_eq_of_lt (show strlen dir + 1 + strlen fb.dir < 2 ^ w by omega),
        Nat.mod_eq_of_lt (show strlen dir + 1 + strlen fb.dir + 1 < 2 ^ w by omega),
        Nat.mod_eq_of_lt (show len + (strlen dir + 1 + strlen fb.dir + 1) < 2 ^ w by omega)]
      exact ih _ (n + 1) hfit

theorem ld_path_len_c_eq (w : Nat) (s : State) (hw : 32 ≤ w)
    (hd : strlen s.wrapper_exe_dir + 1 < 2147483648) (hfit : (ld_path_len s).1 < 2 ^ w) :
    ld_path_len_c w s = (ld_path_len s).1 := by
  unfold ld_path_len_c
  unfold ld_path_len at hfit ⊢
  cases hv : ld_path_old_val s with
  | none =>
    rw [hv] at hfit
    dsimp only at hfit ⊢
    exact ld_path_len_loop_c_eq w s.wrapper_exe_dir hw hd s.fallback_libs 1 0 hfit
  | some v =>
    rw [hv] at hfit
    dsimp only at hfit ⊢
    have hge := ld_path_len_loop_ge s.wrapper_exe_dir s.fallback_libs (1 + (strlen v + 1)) 0
    rw [Nat.mod_eq_of_lt (show strlen v + 1 < 2 ^ w by omega),
      Nat.mod_eq_of_lt (show 1 + (strlen v + 1) < 2 ^ w by omega)]
    exact ld_path_len_loop_c_eq w s.wrapper_exe_dir hw hd s.fallback_libs _ 0 hfit

/-! ## C1: the tier returned by the probe -/

/-- C1, as stated, fails: in `table_three` under `loader_only_f1` the probe
symbol of tier 1 resolves and that of tier 2 does not, yet `get_gcc_version`
returns `-1`, not `1`, because the scan already stopped at tier 0. -/
theorem C1_counterexample :
    loader_only_f1.dlopen "libfoo.so" = some 1
    ∧ table_three[1]? = some ⟨"1.1", "V_1.1", some "f1"⟩
    ∧ loader_only_f1.dlvsym 1 "f1" "V_1.1" = true
    ∧ table_three[2]? = some ⟨"1.2", "V_1.2", some "f2"⟩
    ∧ loader_only_f1.dlvsym 1 "f2" "V_1.2" = false
    ∧ (get_gcc_version loader_only_f1 "libfoo.so" table_three 3 (init_state 0 "" none)).1 = -1
    ∧ (get_gcc_version loader_only_f1 "libfoo.so" table_three 3 (init_state 0 "" none)).1
        ≠ 1 := by
  decide

/-- C1, amended: for every table and every library that loads, if tier `k` has a
probe symbol that resolves, tier `k+1` has a probe symbol that does not resolve,
and no tier below `k` has a probe symbol that fails to resolve, then
`get_gcc_version` returns exactly `k`, whichever tiers have no probe symbol. -/
theorem C1_probe_returns_tier (L : DynLoader) (libpath : String)
    (checks : List gcc_version_check) (num_checks : Int) (s : State) (handle : Handle)
    (k : Nat) (ck ck1 : gcc_version_check)
    (hload : L.dlopen libpath = some handle)
    (hn : (k : Int) + 1 < num_checks)
    (hk : checks[k]? = some ck)
    (hprobe : tier_has_probe ck = true)
    (hres : tier_unresolved L handle ck = false)
    (hk1 : checks[k + 1]? = some ck1)
    (hunres : tier_unresolved L handle ck1 = true)
    (hbelow : ∀ (j : Nat) (c : gcc_version_check), j < k → checks[j]? = some c → tier_unresolved L handle c = false) :
    (get_gcc_version L libpath checks num_checks s).1 = (k : Int) := by
  have hlt : k + 1 < num_checks.toNat := by omega
  have hget : ∀ j, j < num_checks.toNat → (checks.take num_checks.toNat)[j]? = checks[j]? := by
    intro j hj
    rw [List.getElem?_take]
    simp [hj]
  unfold get_gcc_version
  simp only [hload]
  rw [loop_stops_after L handle (checks.take num_checks.toNat) k 0 (-1) _ ck ck1
    (by rw [hget k (by omega)]; exact hk) hprobe hres
    (by rw [hget (k + 1) hlt]; exact hk1) hunres
    (by
      intro j c hj hc
      rw [hget j (by omega)] at hc
      exact hbelow j c hj hc)]
  simp

/-- C1, amended, at `table_gap` under `loader_f0_f2`: tier 2 resolves, tier 3 does
not, tier 0 resolves and tier 1 has no probe symbol; the probe returns 2. -/
theorem C1_probe_returns_tier_witness :
    (get_gcc_version loader_f0_f2 "libfoo.so" table_gap 4 (init_state 0 "" none)).1 = 2 :=
  C1_probe_returns_tier loader_f0_f2 "libfoo.so" table_gap 4 (init_state 0 "" none) 1 2
    ⟨"1.2", "V_1.2", some "f2"⟩ ⟨"1.3", "V_1.3", some "f3"⟩
    rfl (by decide) rfl rfl (by decide) rfl (by decide)
    (by
      intro j c hj hc
      have hj2 : j = 0 ∨ j = 1 := by omega
      rcases hj2 with h | h
      · subst h
        simp only [table_gap, List.getElem?_cons_zero, Option.some.injEq] at hc
        subst hc
        decide
      · subst h
        simp only [table_gap, List.getElem?_cons_succ, List.getElem?_cons_zero,
          Option.some.injEq] at hc
        subst hc
        decide)

/-! ## C10: the probe result in full -/

/-- C10: for every table (of `num_checks ≥ 0` tiers) and every library,
`get_gcc_version` returns what the specification says (`probe_spec`): `-1` if
the library does not load; otherwise, `f` being the index of the first tier whose
probe symbol fails to resolve (the number of tiers if there is none), the index
of the last tier below `f` that has a probe symbol, or `-1` if no tier below `f`
has one.  The result lies in `-1 .. num_checks-1`, and the loader calls made are
the lookups for the tiers up to and including tier `f`, none for a later tier. -/
theorem C10_probe_result (L : DynLoader) (libpath : String)
    (checks : List gcc_version_check) (num_checks : Int) (s : State)
    (hn : 0 ≤ num_checks) :
    (get_gcc_version L libpath checks num_checks s).1 = probe_spec L libpath checks num_checks
    ∧ -1 ≤ (get_gcc_version L libpath checks num_checks s).1
    ∧ (get_gcc_version L libpath checks num_checks s).1 ≤ num_checks - 1
    ∧ (L.dlopen libpath = none → (get_gcc_version L libpath checks num_checks s).1 = -1)
    ∧ ∀ handle, L.dlopen libpath = some handle →
        (((get_gcc_version L libpath checks num_checks s).1 = -1
            ∧ ∀ (j : Nat) (c : gcc_version_check), j < first_unresolved L handle (checks.take num_checks.toNat) →
                (checks.take num_checks.toNat)[j]? = some c → tier_has_probe c = false)
          ∨ ∃ (r : Nat) (c : gcc_version_check), (get_gcc_version L libpath checks num_checks s).1 = (r : Int)
              ∧ r < first_unresolved L handle (checks.take num_checks.toNat)
              ∧ (checks.take num_checks.toNat)[r]? = some c
              ∧ tier_has_probe c = true
              ∧ ∀ (m : Nat) (c2 : gcc_version_check), r < m → m < first_unresolved L handle (checks.take num_checks.toNat) →
                  (checks.take num_checks.toNat)[m]? = some c2 → tier_has_probe c2 = false)
        ∧ (get_gcc_version L libpath checks num_checks s).2.dl
            = s.dl ++ DlEvent.dlopen libpath (some handle)
              :: (probe_events L handle ((checks.take num_checks.toNat).take
                    (first_unresolved L handle (checks.take num_checks.toNat) + 1))
                ++ (if first_unresolved L handle (checks.take num_checks.toNat)
                      < (checks.take num_checks.toNat).length then [DlEvent.dlerror] else [])
                ++ [DlEvent.dlclose handle]) := by
  have hres := get_gcc_version_result L libpath checks num_checks s
  have hst := get_gcc_version_state L libpath checks num_checks s
  cases hload : L.dlopen libpath with
  | none =>
    have hm1 : (get_gcc_version L libpath checks num_checks s).1 = -1 := by
      rw [hres]; simp [probe_spec, hload]
    refine ⟨hres, ?_, ?_, fun _ => hm1, ?_⟩
    · rw [hm1]
    · rw [hm1]; omega
    · intro handle h; cases h
  | some h0 =>
    have hval : (get_gcc_version L libpath checks num_checks s).1
        = last_probe_index ((checks.take num_checks.toNat).take
            (first_unresolved L h0 (checks.take num_checks.toNat))) := by
      rw [hres]; simp [probe_spec, hload]
    have hle : first_unresolved L h0 (checks.take num_checks.toNat) ≤ num_checks.toNat := by
      have h1 : first_unresolved L h0 (checks.take num_checks.toNat)
          ≤ (checks.take num_checks.toNat).length := List.findIdx_le_length _
      have h2 : (checks.take num_checks.toNat).length ≤ num_checks.toNat :=
        List.length_take_le _ _
      omega
    have hlog := last_probe_index_take (checks.take num_checks.toNat)
      (first_unresolved L h0 (checks.take num_checks.toNat))
    rw [← hval] at hlog
    refine ⟨hres, ?_, ?_, ?_, ?_⟩
    · rcases hlog with ⟨h1, _⟩ | ⟨r, c, h1, _⟩
      · rw [h1]
      · rw [h1]; omega
    · rcases hlog with ⟨h1, _⟩ | ⟨r, c, h1, hr, _⟩
      · rw [h1]; omega
      · rw [h1]; omega
    · intro hnone; cases hnone
    · intro handle hh
      cases hh
      refine ⟨hlog, ?_⟩
      rw [hst]
      simp [hload, scan_events]

/-- C10 at `table_gap` under `loader_f0_f2`: tier 3 is the first unresolved
tier, tier 2 the last tier before it with a probe symbol. -/
theorem C10_probe_result_witness :
    (0 : Int) ≤ 4
    ∧ (get_gcc_version loader_f0_f2 "libfoo.so" table_gap 4 (init_state 0 "" none)).1
        = probe_spec loader_f0_f2 "libfoo.so" table_gap 4
    ∧ probe_spec loader_f0_f2 "libfoo.so" table_gap 4 = 2
    ∧ first_unresolved loader_f0_f2 1 table_gap = 3 :=
  ⟨by decide,
    (C10_probe_result loader_f0_f2 "libfoo.so" table_gap 4 (init_state 0 "" none)
      (by decide)).1,
    by decide, by decide⟩

/-! ## C6 and C9: a library that does not load -/

/-- C6: for every path whose load fails and every table, `get_gcc_version`
returns `-1`, having called the loader for `dlopen` and `dlerror` only (no symbol
lookup), and returns to its caller with a state that differs in the trace and the
standard error log alone; `get_libsdl2_version` returns the all-zero triple,
having made no symbol lookup either. -/
theorem C6_load_failure (L : DynLoader) (libpath : String)
    (checks : List gcc_version_check) (num_checks : Int) (s : State)
    (hfail : L.dlopen libpath = none) :
    (get_gcc_version L libpath checks num_checks s).1 = -1
    ∧ (get_gcc_version L libpath checks num_checks s).2
        = { s with
            dl := s.dl ++ [DlEvent.dlopen libpath none, DlEvent.dlerror],
            stderr := s.stderr
              ++ ["couldn't dlopen() " ++ libpath ++ " : " ++ L.dlerror libpath ++ "\n"] }
    ∧ (get_libsdl2_version L libpath s).1 = ⟨0, 0, 0⟩
    ∧ (get_libsdl2_version L libpath s).2.dl
        = s.dl ++ DlEvent.dlopen libpath none
            :: (if s.debugOutput ≠ 0 then [DlEvent.dlerror] else []) := by
  refine ⟨?_, ?_, ?_, ?_⟩
  · rw [get_gcc_version_result]; simp [probe_spec, hfail]
  · rw [get_gcc_version_state]; simp [hfail]
  · rw [get_libsdl2_version_result]; simp [read_spec, hfail]
  · rw [get_libsdl2_version_dl]; simp [hfail]

/-- C6 under `loader_nothing`, with the libstdc++ table. -/
theorem C6_load_failure_witness :
    loader_nothing.dlopen "libs/stdcpp/libstdc++.so.6" = none
    ∧ (get_gcc_version loader_nothing "libs/stdcpp/libstdc++.so.6"
        (libstdcpp_version_checks true) 33 (init_state 0 "/opt/game" none)).1 = -1
    ∧ (get_libsdl2_version loader_nothing "libs/stdcpp/libstdc++.so.6"
        (init_state 0 "/opt/game" none)).1 = ⟨0, 0, 0⟩ :=
  have h := C6_load_failure loader_nothing "libs/stdcpp/libstdc++.so.6"
    (libstdcpp_version_checks true) 33 (init_state 0 "/opt/game" none) rfl
  ⟨rfl, h.1, h.2.2.1⟩

/-- C9 fails on the code: with debug output disabled, `get_gcc_version` on a
path that does not load writes its report to standard error (through `eprintf`,
which does not look at `debugOutput`), whereas `get_libsdl2_version`, which
reports the same failure through `dprintf`, writes nothing. -/
theorem C9_load_failure_reported_on_stderr :
    (init_state 0 "/opt/game" none).debugOutput = 0
    ∧ loader_nothing.dlopen "libs/stdcpp/libstdc++.so.6" = none
    ∧ (get_gcc_version loader_nothing "libs/stdcpp/libstdc++.so.6"
        (libstdcpp_version_checks true) 33 (init_state 0 "/opt/game" none)).2.stderr
      = ["couldn't dlopen() libs/stdcpp/libstdc++.so.6 : cannot open shared object file\n"]
    ∧ (get_gcc_version loader_nothing "libs/stdcpp/libstdc++.so.6"
        (libstdcpp_version_checks true) 33 (init_state 0 "/opt/game" none)).2.stdout = []
    ∧ (get_libsdl2_version loader_nothing "libs/sdl2/libSDL2-2.0.so.0"
        (init_state 0 "/opt/game" none)).2.stderr = []
    ∧ (get_libsdl2_version loader_nothing "libs/sdl2/libSDL2-2.0.so.0"
        (init_state 0 "/opt/game" none)).2.stdout = [] := by
  decide

/-! ## C2, C3, C4: the three comparators -/

/-- C2: for the libstdc++ and the libgcc entry, whatever the two probe results
`sys_ver` and `our_ver` (each `-1` or a tier index), the comparison sets the
entry's `use` flag iff `our_ver > sys_ver`; after `check_fallback_libs` the flags
of entries 0 and 1 are set iff the probe of the bundled copy is greater than the
probe of the system copy; and (system, bundled) = (-1,-1) gives no override,
(-1,0) an override, (5,5) none, (3,7) an override. -/
theorem C2_ordinal_comparator (HAVE_64_BIT : Bool) (L : DynLoader) (s t : State)
    (fb_lib_idx : Nat) (sys_ver our_ver : Int)
    (hs : s.fallback_libs = fallback_libs)
    (hidx : fb_lib_idx < t.fallback_libs.length)
    (huse : (t.fb fb_lib_idx).use = 0) :
    (((compare_libstdcpp HAVE_64_BIT fb_lib_idx sys_ver our_ver t).fb fb_lib_idx).use ≠ 0
        ↔ our_ver > sys_ver)
    ∧ (((compare_libgcc HAVE_64_BIT fb_lib_idx sys_ver our_ver t).fb fb_lib_idx).use ≠ 0
        ↔ our_ver > sys_ver)
    ∧ (((check_fallback_libs HAVE_64_BIT L s).2.fb 0).use ≠ 0
        ↔ (get_libstdcpp_version HAVE_64_BIT L "libs/stdcpp/libstdc++.so.6" s).1
            > (get_libstdcpp_version HAVE_64_BIT L "libstdc++.so.6" s).1)
    ∧ (((check_fallback_libs HAVE_64_BIT L s).2.fb 1).use ≠ 0
        ↔ (get_libgcc_version HAVE_64_BIT L "libs/gcc/libgcc_s.so.1" s).1
            > (get_libgcc_version HAVE_64_BIT L "libgcc_s.so.1" s).1)
    ∧ ((compare_libstdcpp HAVE_64_BIT fb_lib_idx (-1) (-1) t).fb fb_lib_idx).use = 0
    ∧ ((compare_libstdcpp HAVE_64_BIT fb_lib_idx (-1) 0 t).fb fb_lib_idx).use = 1
    ∧ ((compare_libstdcpp HAVE_64_BIT fb_lib_idx 5 5 t).fb fb_lib_idx).use = 0
    ∧ ((compare_libstdcpp HAVE_64_BIT fb_lib_idx 3 7 t).fb fb_lib_idx).use = 1
    ∧ ((compare_libgcc HAVE_64_BIT fb_lib_idx (-1) (-1) t).fb fb_lib_idx).use = 0
    ∧ ((compare_libgcc HAVE_64_BIT fb_lib_idx (-1) 0 t).fb fb_lib_idx).use = 1
    ∧ ((compare_libgcc HAVE_64_BIT fb_lib_idx 5 5 t).fb fb_lib_idx).use = 0
    ∧ ((compare_libgcc HAVE_64_BIT fb_lib_idx 3 7 t).fb fb_lib_idx).use = 1 := by
  refine ⟨?_, ?_, ?_, ?_, ?_, ?_, ?_, ?_, ?_, ?_, ?_, ?_⟩
  · rw [compare_libstdcpp_use _ _ _ _ _ hidx huse]
    by_cases h : our_ver > sys_ver <;> simp [h]
  · rw [compare_libgcc_use _ _ _ _ _ hidx huse]
    by_cases h : our_ver > sys_ver <;> simp [h]
  · unfold State.fb get_libstdcpp_version
    rw [check_fallback_libs_libs _ _ _ hs, get_gcc_version_result, get_gcc_version_result]
    simp only [List.getD_cons_zero, ordinal_prefers, bundled_path_stdcpp]
    split_ifs with h <;> simp [h]
  · unfold State.fb get_libgcc_version
    rw [check_fallback_libs_libs _ _ _ hs, get_gcc_version_result, get_gcc_version_result]
    simp only [List.getD_cons_succ, List.getD_cons_zero, ordinal_prefers, bundled_path_gcc]
    split_ifs with h <;> simp [h]
  all_goals first
    | (rw [compare_libstdcpp_use _ _ _ _ _ hidx huse]; decide)
    | (rw [compare_libgcc_use _ _ _ _ _ hidx huse]; decide)

/-- C2 on the state at the call in `main`, under a loader in which nothing
loads, for the pair (3, 7) at entry 0. -/
theorem C2_ordinal_comparator_witness :
    (((compare_libstdcpp true 0 3 7 (init_state 0 "/opt/game" none)).fb 0).use ≠ 0
      ↔ (7 : Int) > 3)
    ∧ ((compare_libstdcpp true 0 3 7 (init_state 0 "/opt/game" none)).fb 0).use = 1 :=
  have h := C2_ordinal_comparator true loader_nothing (init_state 0 "/opt/game" none)
    (init_state 0 "/opt/game" none) 0 3 7 rfl (by decide) rfl
  ⟨h.1, h.2.2.2.2.2.2.2.1⟩

/-- C3, as stated, fails: for the bundled triple `{0,1,0}`, which is not the
all-zero sentinel, and the system triple `{2,0,22}`, whose major version differs,
the comparison as specified calls for an override, yet the code leaves the flag
clear, because it tests `sdl_our_ver.major != 0` alone. -/
theorem C3_counterexample :
    semver_as_specified ⟨2, 0, 22⟩ ⟨0, 1, 0⟩
    ∧ ((compare_libsdl2 2 ⟨2, 0, 22⟩ ⟨0, 1, 0⟩ (init_state 0 "/opt/game" none)).fb 2).use = 0
    ∧ ¬ (((compare_libsdl2 2 ⟨2, 0, 22⟩ ⟨0, 1, 0⟩ (init_state 0 "/opt/game" none)).fb 2).use ≠ 0
          ↔ semver_as_specified ⟨2, 0, 22⟩ ⟨0, 1, 0⟩) := by
  decide

/-- C3, amended: for every bundled triple `B` and system triple `S`, the
comparison sets the SDL2 entry's `use` flag iff `B.major ≠ 0` and (`S.major ≠
B.major` or `S.minor < B.minor` or (`S.minor = B.minor` and `S.patch <
B.patch`)); after `check_fallback_libs` the flag of entry 2 is set iff this holds
of the two triples read; with `B = {2,0,22}`, `S = {2,0,20}` gives an override,
`S = {2,24,0}` none, `S = {3,0,0}` an override, and `B = {0,0,0}` gives none for
every `S`. -/
theorem C3_semver_comparator (HAVE_64_BIT : Bool) (L : DynLoader) (s t : State)
    (fb_lib_idx : Nat) (S B : My_SDL2_version)
    (hs : s.fallback_libs = fallback_libs)
    (hidx : fb_lib_idx < t.fallback_libs.length)
    (huse : (t.fb fb_lib_idx).use = 0) :
    (((compare_libsdl2 fb_lib_idx S B t).fb fb_lib_idx).use ≠ 0
        ↔ B.major ≠ 0
          ∧ (S.major ≠ B.major ∨ S.minor < B.minor
            ∨ (S.minor = B.minor ∧ S.patch < B.patch)))
    ∧ (((check_fallback_libs HAVE_64_BIT L s).2.fb 2).use ≠ 0
        ↔ semver_override (get_libsdl2_version L "libSDL2-2.0.so.0" s).1
            (get_libsdl2_version L "libs/sdl2/libSDL2-2.0.so.0" s).1)
    ∧ ((compare_libsdl2 fb_lib_idx ⟨2, 0, 20⟩ ⟨2, 0, 22⟩ t).fb fb_lib_idx).use = 1
    ∧ ((compare_libsdl2 fb_lib_idx ⟨2, 24, 0⟩ ⟨2, 0, 22⟩ t).fb fb_lib_idx).use = 0
    ∧ ((compare_libsdl2 fb_lib_idx ⟨3, 0, 0⟩ ⟨2, 0, 22⟩ t).fb fb_lib_idx).use = 1
    ∧ ((compare_libsdl2 fb_lib_idx S ⟨0, 0, 0⟩ t).fb fb_lib_idx).use = 0 := by
  refine ⟨?_, ?_, ?_, ?_, ?_, ?_⟩
  · rw [compare_libsdl2_use _ _ _ _ hidx huse]
    unfold semver_override
    split_ifs with h
    · simpa using h
    · simpa using h
  · unfold State.fb
    rw [check_fallback_libs_libs _ _ _ hs, get_libsdl2_version_result,
      get_libsdl2_version_result]
    simp only [List.getD_cons_succ, List.getD_cons_zero, semver_prefers, bundled_path_sdl2]
    split_ifs with h <;> simp [h]
  · rw [compare_libsdl2_use _ _ _ _ hidx huse]; decide
  · rw [compare_libsdl2_use _ _ _ _ hidx huse]; decide
  · rw [compare_libsdl2_use _ _ _ _ hidx huse]; decide
  · rw [compare_libsdl2_use _ _ _ _ hidx huse]
    simp [semver_override]

/-- C3, amended, on the state at the call in `main`, for the bundled triple
`{2,0,22}` and the system triple `{2,0,20}` at entry 2. -/
theorem C3_semver_comparator_witness :
    ((compare_libsdl2 2 ⟨2, 0, 20⟩ ⟨2, 0, 22⟩ (init_state 0 "/opt/game" none)).fb 2).use ≠ 0
      ↔ (2 : Nat) ≠ 0
        ∧ ((2 : Nat) ≠ 2 ∨ (0 : Nat) < 0 ∨ ((0 : Nat) = 0 ∧ (20 : Nat) < 22)) :=
  (C3_semver_comparator true loader_nothing (init_state 0 "/opt/game" none)
    (init_state 0 "/opt/game" none) 2 ⟨2, 0, 20⟩ ⟨2, 0, 22⟩ rfl (by decide) rfl).1

/-- C4: after `check_fallback_libs` the flag of the libcurl entry is set iff
`dlopen` of the bare name `libcurl.so.4` fails; any other run in which that load
has the same outcome, whatever else its loader answers, ends with the same flag;
and the libcurl block calls the loader for that `dlopen` (and the matching
`dlclose`) only, so it reads no version data. -/
theorem C4_presence_only (HAVE_64_BIT : Bool) (L : DynLoader) (s : State)
    (hs : s.fallback_libs = fallback_libs) :
    (((check_fallback_libs HAVE_64_BIT L s).2.fb 3).use ≠ 0
        ↔ L.dlopen "libcurl.so.4" = none)
    ∧ (∀ (b2 : Bool) (L2 : DynLoader) (s2 : State), s2.fallback_libs = fallback_libs →
        (L2.dlopen "libcurl.so.4" = none ↔ L.dlopen "libcurl.so.4" = none) →
        ((check_fallback_libs b2 L2 s2).2.fb 3).use
          = ((check_fallback_libs HAVE_64_BIT L s).2.fb 3).use)
    ∧ (∀ (t : State) (fb_lib_idx : Nat),
        (check_libcurl4 L fb_lib_idx t).dl
          = t.dl ++ match L.dlopen (t.fb fb_lib_idx).name with
            | none => [DlEvent.dlopen (t.fb fb_lib_idx).name none]
            | some curlHandle => [DlEvent.dlopen (t.fb fb_lib_idx).name (some curlHandle),
                DlEvent.dlclose curlHandle]) := by
  have hflag : ∀ (b2 : Bool) (L2 : DynLoader) (s2 : State),
      s2.fallback_libs = fallback_libs →
      ((check_fallback_libs b2 L2 s2).2.fb 3).use
        = if L2.dlopen "libcurl.so.4" = none then 1 else 0 := by
    intro b2 L2 s2 hs2
    unfold State.fb
    rw [check_fallback_libs_libs _ _ _ hs2]
    simp [presence_prefers]
  refine ⟨?_, ?_, ?_⟩
  · rw [hflag _ _ _ hs]
    split_ifs with h <;> simp [h]
  · intro b2 L2 s2 hs2 hsame
    rw [hflag _ _ _ hs, hflag _ _ _ hs2]
    by_cases h : L.dlopen "libcurl.so.4" = none
    · simp [h, hsame.mpr h]
    · have h2 : ¬ L2.dlopen "libcurl.so.4" = none := fun h2 => h (hsame.mp h2)
      simp [h, h2]
  · intro t fb_lib_idx
    have hcases : L.dlopen (t.fb fb_lib_idx).name = none
        ∨ ∃ handle, L.dlopen (t.fb fb_lib_idx).name = some handle := by
      cases L.dlopen (t.fb fb_lib_idx).name <;> simp
    rcases hcases with h | ⟨handle, h⟩ <;>
      by_cases hd : t.debugOutput = 0 <;>
      simp [check_libcurl4, dprintf, State.fb_set_use, State.record, hd, h]

/-- C4 on the state at the call in `main` under a loader in which nothing
loads: the libcurl entry is overridden. -/
theorem C4_presence_only_witness :
    ((check_fallback_libs true loader_nothing (init_state 0 "/opt/game" none)).2.fb 3).use ≠ 0
      ↔ loader_nothing.dlopen "libcurl.so.4" = none :=
  (C4_presence_only true loader_nothing (init_state 0 "/opt/game" none) rfl).1

/-! ## C7: library handles are released -/

/-- C7: every probe, read or presence operation, whatever the loader answers,
appends to the trace of loader calls a segment with as many handle acquisitions
(successful `dlopen`) as releases (`dlclose`) and after which exactly the handles
held before the operation are held, so the handle it opened is released before it
returns; and the same holds of the trace of any sequence of such operations, each
with loader outcomes of its own. -/
theorem C7_handles_released :
    (∀ (L : DynLoader) (op : LoaderOp) (s : State),
      ∃ seg, (op.run L s).dl = s.dl ++ seg ∧ acquisitions seg = releases seg
        ∧ ∀ held, held_after held seg = held)
    ∧ (∀ (ops : List (DynLoader × LoaderOp)) (s : State),
      ∃ seg, (run_ops ops s).dl = s.dl ++ seg ∧ acquisitions seg = releases seg
        ∧ ∀ held, held_after held seg = held) := by
  refine ⟨op_balanced, ?_⟩
  intro ops
  induction ops with
  | nil => intro s; exact ⟨[], by simp [run_ops], rfl, fun _ => rfl⟩
  | cons x rest ih =>
    intro s
    obtain ⟨L, op⟩ := x
    obtain ⟨seg1, hd1, hc1, hh1⟩ := op_balanced L op s
    obtain ⟨seg2, hd2, hc2, hh2⟩ := ih (op.run L s)
    refine ⟨seg1 ++ seg2, ?_, ?_, ?_⟩
    · simp only [run_ops]
      rw [hd2, hd1, List.append_assoc]
    · rw [acquisitions_append, releases_append, hc1, hc2]
    · intro held
      rw [held_after_append, hh1, hh2]

/-! ## C8: the decision aggregator -/

/-- C8: started on the array as initialised, `check_fallback_libs` returns 1
under every loader; its loader calls are the probes, reads and presence check of
all four entries, whichever of them fail; and in two runs under different loaders
the `use` flag of an entry is the same whenever that entry's own system and bundled
results are the same in both runs, whatever the results of the other entries. -/
theorem C8_aggregator (HAVE_64_BIT : Bool) (L1 L2 : DynLoader) (s1 s2 : State)
    (hs1 : s1.fallback_libs = fallback_libs) (hs2 : s2.fallback_libs = fallback_libs) :
    (check_fallback_libs HAVE_64_BIT L1 s1).1 = 1
    ∧ (check_fallback_libs HAVE_64_BIT L1 s1).2.dl
        = s1.dl
          ++ (probe_trace L1 "libstdc++.so.6"
                (libstdcpp_version_checks HAVE_64_BIT) NUM_STDCPP_GCC_VERSIONS
            ++ (probe_trace L1 "libs/stdcpp/libstdc++.so.6"
                (libstdcpp_version_checks HAVE_64_BIT) NUM_STDCPP_GCC_VERSIONS
            ++ (probe_trace L1 "libgcc_s.so.1"
                (libgcc_version_checks HAVE_64_BIT) NUM_LIBGCC_VERSIONS
            ++ (probe_trace L1 "libs/gcc/libgcc_s.so.1"
                (libgcc_version_checks HAVE_64_BIT) NUM_LIBGCC_VERSIONS
            ++ (read_trace L1 "libSDL2-2.0.so.0" s1.debugOutput
            ++ (read_trace L1 "libs/sdl2/libSDL2-2.0.so.0" s1.debugOutput
            ++ presence_trace L1 "libcurl.so.4"))))))
    ∧ ((get_libstdcpp_version HAVE_64_BIT L1 "libstdc++.so.6" s1).1
          = (get_libstdcpp_version HAVE_64_BIT L2 "libstdc++.so.6" s2).1 →
        (get_libstdcpp_version HAVE_64_BIT L1 "libs/stdcpp/libstdc++.so.6" s1).1
          = (get_libstdcpp_version HAVE_64_BIT L2 "libs/stdcpp/libstdc++.so.6" s2).1 →
        ((check_fallback_libs HAVE_64_BIT L1 s1).2.fb 0).use
          = ((check_fallback_libs HAVE_64_BIT L2 s2).2.fb 0).use)
    ∧ ((get_libgcc_version HAVE_64_BIT L1 "libgcc_s.so.1" s1).1
          = (get_libgcc_version HAVE_64_BIT L2 "libgcc_s.so.1" s2).1 →
        (get_libgcc_version HAVE_64_BIT L1 "libs/gcc/libgcc_s.so.1" s1).1
          = (get_libgcc_version HAVE_64_BIT L2 "libs/gcc/libgcc_s.so.1" s2).1 →
        ((check_fallback_libs HAVE_64_BIT L1 s1).2.fb 1).use
          = ((check_fallback_libs HAVE_64_BIT L2 s2).2.fb 1).use)
    ∧ ((get_libsdl2_version L1 "libSDL2-2.0.so.0" s1).1
          = (get_libsdl2_version L2 "libSDL2-2.0.so.0" s2).1 →
        (get_libsdl2_version L1 "libs/sdl2/libSDL2-2.0.so.0" s1).1
          = (get_libsdl2_version L2 "libs/sdl2/libSDL2-2.0.so.0" s2).1 →
        ((check_fallback_libs HAVE_64_BIT L1 s1).2.fb 2).use
          = ((check_fallback_libs HAVE_64_BIT L2 s2).2.fb 2).use)
    ∧ ((L1.dlopen "libcurl.so.4").isSome = (L2.dlopen "libcurl.so.4").isSome →
        ((check_fallback_libs HAVE_64_BIT L1 s1).2.fb 3).use
          = ((check_fallback_libs HAVE_64_BIT L2 s2).2.fb 3).use) := by
  refine ⟨rfl, check_fallback_libs_dl HAVE_64_BIT L1 s1 hs1, ?_, ?_, ?_, ?_⟩
  · unfold get_libstdcpp_version
    simp only [get_gcc_version_result]
    intro hsys hour
    unfold State.fb
    rw [check_fallback_libs_libs _ _ _ hs1, check_fallback_libs_libs _ _ _ hs2]
    simp only [List.getD_cons_zero, ordinal_prefers, bundled_path_stdcpp, hsys, hour]
  · unfold get_libgcc_version
    simp only [get_gcc_version_result]
    intro hsys hour
    unfold State.fb
    rw [check_fallback_libs_libs _ _ _ hs1, check_fallback_libs_libs _ _ _ hs2]
    simp only [List.getD_cons_succ, List.getD_cons_zero, ordinal_prefers, bundled_path_gcc,
      hsys, hour]
  · simp only [get_libsdl2_version_result]
    intro hsys hour
    unfold State.fb
    rw [check_fallback_libs_libs _ _ _ hs1, check_fallback_libs_libs _ _ _ hs2]
    simp only [List.getD_cons_succ, List.getD_cons_zero, semver_prefers, bundled_path_sdl2,
      hsys, hour]
  · intro hload
    unfold State.fb
    rw [check_fallback_libs_libs _ _ _ hs1, check_fallback_libs_libs _ _ _ hs2]
    simp only [List.getD_cons_succ, List.getD_cons_zero, presence_prefers]
    rcases Option.eq_none_or_eq_some (L1.dlopen "libcurl.so.4") with h1 | ⟨x1, h1⟩ <;>
      rcases Option.eq_none_or_eq_some (L2.dlopen "libcurl.so.4") with h2 | ⟨x2, h2⟩ <;>
      simp [h1, h2] at hload ⊢

/-- C8 for two runs from the state at the call in `main`, one under a loader
in which nothing loads, one under a loader in which everything loads and SDL2
reports a version: the libstdc++ entry, whose probes give `-1` in both runs, gets
the same flag in both, although the SDL2 and libcurl entries fare differently. -/
theorem C8_aggregator_witness :
    (check_fallback_libs true loader_nothing (init_state 0 "/opt/game" none)).1 = 1
    ∧ ((check_fallback_libs true loader_nothing (init_state 0 "/opt/game" none)).2.fb 0).use
        = ((check_fallback_libs true loader_sdl_only (init_state 0 "/opt/game" none)).2.fb 0).use
    ∧ ((check_fallback_libs true loader_nothing (init_state 0 "/opt/game" none)).2.fb 3).use
        ≠ ((check_fallback_libs true loader_sdl_only (init_state 0 "/opt/game" none)).2.fb
            3).use :=
  have h := C8_aggregator true loader_nothing loader_sdl_only
    (init_state 0 "/opt/game" none) (init_state 0 "/opt/game" none) rfl rfl
  ⟨h.1, h.2.2.1 (by decide) (by decide), by decide⟩

/-! ## C5: the path composer -/

/-- C5, as stated, fails: with libstdc++ overridden and `LD_LIBRARY_PATH` set to
the empty string, a prior value exists, so the claim gives the bundled directory
followed by `:` and the (empty) prior value, yet the code sets
`/opt/game/libs/stdcpp` with no trailing `:`, treating the empty value as unset. -/
theorem C5_counterexample :
    state_stdcpp_empty_env.LD_LIBRARY_PATH = some ""
    ∧ bundled_dirs state_stdcpp_empty_env = ["/opt/game/libs/stdcpp"]
    ∧ (set_ld_library_path libc_ok state_stdcpp_empty_env).2.LD_LIBRARY_PATH
        = some "/opt/game/libs/stdcpp"
    ∧ (set_ld_library_path libc_ok state_stdcpp_empty_env).2.LD_LIBRARY_PATH
        ≠ some (String.intercalate ":" (bundled_dirs state_stdcpp_empty_env) ++ ":" ++ "") := by
  decide

/-- C5, amended: for every install directory, every array of entries with at
least one `use` flag set, and every prior `LD_LIBRARY_PATH`, the string handed to
`setenv` is exactly the strings `<installDir>/<bundledDir>` of the entries whose
flag is set, in declared order, joined by single `:`, followed by `:` and the
prior value when a non-empty prior value existed, and by nothing (no trailing
`:`) when the variable was unset or empty; when `malloc` and `setenv` succeed the
function returns 1 with the variable set to that string. -/
theorem C5_path_composer (C : LibC) (s : State)
    (hused : ∃ fb ∈ s.fallback_libs, fb.use ≠ 0) :
    ld_path_new_val s
        = String.intercalate ":" (bundled_dirs s)
          ++ (match s.LD_LIBRARY_PATH with
              | none => ""
              | some old_val => if old_val = "" then "" else ":" ++ old_val)
    ∧ (C.malloc (ld_path_len s).1 = true → C.setenv (ld_path_new_val s) = none →
        (set_ld_library_path C s).1 = 1
        ∧ (set_ld_library_path C s).2.LD_LIBRARY_PATH = some (ld_path_new_val s)) := by
  have hne := bundled_dirs_ne_nil s hused
  have hcat : ld_path_cat_loop s.wrapper_exe_dir s.fallback_libs ""
      = String.intercalate ":" (bundled_dirs s) ++ ":" := by
    rw [ld_path_cat_loop_eq]
    exact foldl_colon_eq_intercalate _ hne
  have hcount : (ld_path_len s).2 ≠ 0 := by
    unfold ld_path_len
    simp only [ld_path_len_loop_count]
    have hpos : 0 < (bundled_dirs s).length := List.length_pos.mpr hne
    simp only [bundled_dirs, List.length_map] at hpos
    omega
  refine ⟨?_, ?_⟩
  · unfold ld_path_new_val ld_path_old_val
    rw [hcat]
    cases hv : s.LD_LIBRARY_PATH with
    | none => simp [cut_last_colon]
    | some v =>
      by_cases he : v = ""
      · subst he
        simp [cut_last_colon]
      · have hd : v.data ≠ [] := by
          intro hd
          exact he (String.ext hd)
        simp [hd, he, String.append_assoc]
  · intro hmalloc hsetenv
    unfold set_ld_library_path
    simp only [hcount, if_false, hmalloc, hsetenv]
    simp [dprintf]
    split_ifs <;> simp

/-- C5, amended, for the end-to-end scenario of the specification: only the
second entry is overridden and `LD_LIBRARY_PATH` was `/usr/local/lib`; the
variable becomes `/opt/game/libs/gcc:/usr/local/lib`. -/
theorem C5_path_composer_witness :
    (∃ fb ∈ state_gcc_prior_env.fallback_libs, fb.use ≠ 0)
    ∧ (set_ld_library_path libc_ok state_gcc_prior_env).2.LD_LIBRARY_PATH
        = some (ld_path_new_val state_gcc_prior_env)
    ∧ ld_path_new_val state_gcc_prior_env = "/opt/game/libs/gcc:/usr/local/lib" :=
  ⟨by decide,
    ((C5_path_composer libc_ok state_gcc_prior_env (by decide)).2 rfl rfl).2,
    by decide⟩

/-! ## C11: the version registry -/

set_option maxRecDepth 100000 in
/-- C11: on a 32-bit and on a 64-bit build alike, `libstdcpp_version_checks` has
33 tiers and `libgcc_version_checks` 20; in both tables the labels, read as
dotted numeric versions, are strictly increasing with the array index, and so are
the version tags; tier 0 of both has a probe symbol; and the tag of tier `i` of
the libstdc++ table is `GLIBCXX_3.4.i` for `i ≥ 1` and `GLIBCXX_3.4` for `i = 0`. -/
theorem C11_tables_ascending (HAVE_64_BIT : Bool) :
    ((libstdcpp_version_checks HAVE_64_BIT).length : Int) = NUM_STDCPP_GCC_VERSIONS
    ∧ NUM_STDCPP_GCC_VERSIONS = 33
    ∧ ((libgcc_version_checks HAVE_64_BIT).length : Int) = NUM_LIBGCC_VERSIONS
    ∧ NUM_LIBGCC_VERSIONS = 20
    ∧ labels_ascending (libstdcpp_version_checks HAVE_64_BIT)
    ∧ tags_ascending (libstdcpp_version_checks HAVE_64_BIT)
    ∧ labels_ascending (libgcc_version_checks HAVE_64_BIT)
    ∧ tags_ascending (libgcc_version_checks HAVE_64_BIT)
    ∧ ((libstdcpp_version_checks HAVE_64_BIT)[0]?).map tier_has_probe = some true
    ∧ ((libgcc_version_checks HAVE_64_BIT)[0]?).map tier_has_probe = some true
    ∧ (libstdcpp_version_checks HAVE_64_BIT).map (fun c => c.fn_version)
        = (List.range 33).map glibcxx_tag := by
  cases HAVE_64_BIT <;> decide

/-! ## C12: the buffer of the path composer -/

/-- C12: for every install directory, every array of entries with at least
one `use` flag set and every prior `LD_LIBRARY_PATH` (unset, empty or non-empty),
the size `len` computed by the first pass of `set_ld_library_path`, which is the
size handed to `malloc`, is at least the length of every content the buffer has in
the second pass plus 1 for the terminating NUL; `len` is exactly 1 plus the length
of the string the loop builds plus, for a non-empty prior value, the length of
that value plus 1; the string the loop builds has at least one character, so
the index `strlen(new_val) - 1` of the cut is not negative; and the computation
on machine integers (`len` a `size_t` of `w ≥ 32` bits, `wrapper_dir_len` an
`int`) gives this same `len` whenever it fits the `size_t` and the length of the
install directory plus 1 fits the `int`, as they do for an install directory held
in the `PATH_MAX` buffer and strings held in memory. -/
theorem C12_buffer_within_allocation (s : State)
    (hused : ∃ fb ∈ s.fallback_libs, fb.use ≠ 0) :
    (∀ buf ∈ ld_path_buffer_states s, strlen buf + 1 ≤ (ld_path_len s).1)
    ∧ ld_path_cat_loop s.wrapper_exe_dir s.fallback_libs "" ∈ ld_path_buffer_states s
    ∧ ld_path_new_val s ∈ ld_path_buffer_states s
    ∧ (ld_path_len s).1
        = 1 + strlen (ld_path_cat_loop s.wrapper_exe_dir s.fallback_libs "")
          + (match ld_path_old_val s with
              | some old_val => strlen old_val + 1
              | none => 0)
    ∧ 1 ≤ strlen (ld_path_cat_loop s.wrapper_exe_dir s.fallback_libs "")
    ∧ (∀ w : Nat, 32 ≤ w → strlen s.wrapper_exe_dir + 1 < 2147483648 →
        (ld_path_len s).1 < 2 ^ w → ld_path_len_c w s = (ld_path_len s).1) := by
  have hne := bundled_dirs_ne_nil s hused
  have hcat : ld_path_cat_loop s.wrapper_exe_dir s.fallback_libs ""
      = String.intercalate ":" (bundled_dirs s) ++ ":" := by
    rw [ld_path_cat_loop_eq]
    exact foldl_colon_eq_intercalate _ hne
  have hcolon : (":" : String).length = 1 := rfl
  have hpos : 1 ≤ strlen (ld_path_cat_loop s.wrapper_exe_dir s.fallback_libs "") := by
    rw [hcat]
    simp only [strlen, String.length_append, hcolon]
    omega
  have hempty : strlen "" = 0 := rfl
  have hlen : (ld_path_len s).1
      = 1 + strlen (ld_path_cat_loop s.wrapper_exe_dir s.fallback_libs "")
        + (match ld_path_old_val s with
            | some old_val => strlen old_val + 1
            | none => 0) := by
    unfold ld_path_len
    cases hv : ld_path_old_val s with
    | none =>
      have h := ld_path_len_loop_exact s.wrapper_exe_dir s.fallback_libs "" 1 0
      rw [hempty] at h
      dsimp only
      omega
    | some v =>
      have h := ld_path_len_loop_exact s.wrapper_exe_dir s.fallback_libs ""
        (1 + (strlen v + 1)) 0
      rw [hempty] at h
      dsimp only
      linarith
  have hmem := ld_path_cat_loop_mem_steps s.wrapper_exe_dir s.fallback_libs ""
  refine ⟨?_, ?_, ?_, hlen, hpos, fun w hw hd hfit => ld_path_len_c_eq w s hw hd hfit⟩
  · intro buf hbuf
    simp only [ld_path_buffer_states, List.mem_cons, List.mem_append,
      List.mem_singleton, List.not_mem_nil, or_false] at hbuf
    have hge : 1 + strlen (ld_path_cat_loop s.wrapper_exe_dir s.fallback_libs "")
        ≤ (ld_path_len s).1 := by
      rw [hlen]; omega
    rcases hbuf with hb | hb | hb
    · subst hb
      rw [hempty]
      omega
    · have := ld_path_cat_steps_bound s.wrapper_exe_dir s.fallback_libs "" buf hb
      omega
    · subst hb
      unfold ld_path_new_val
      cases hv : ld_path_old_val s with
      | none =>
        dsimp only
        rw [strlen_cut_last]
        omega
      | some v =>
        rw [hv] at hlen
        dsimp only at hlen ⊢
        rw [hlen]
        simp only [strlen, String.length_append]
        linarith
  · simp only [ld_path_buffer_states, List.mem_cons, List.mem_append] at hmem ⊢
    rcases hmem with h | h
    · left; exact h
    · right; left; exact h
  · simp [ld_path_buffer_states]

/-- C12 for the state in which the second entry alone is overridden and
`LD_LIBRARY_PATH` was `/usr/local/lib`: `len` is 35 and the longest content of
the buffer, the final value, has 33 characters. -/
theorem C12_buffer_within_allocation_witness :
    (∃ fb ∈ state_gcc_prior_env.fallback_libs, fb.use ≠ 0)
    ∧ (∀ buf ∈ ld_path_buffer_states state_gcc_prior_env,
        strlen buf + 1 ≤ (ld_path_len state_gcc_prior_env).1)
    ∧ (ld_path_len state_gcc_prior_env).1 = 35
    ∧ ld_path_len_c 64 state_gcc_prior_env = 35
    ∧ strlen (ld_path_new_val state_gcc_prior_env) = 33 :=
  ⟨by decide, (C12_buffer_within_allocation state_gcc_prior_env (by decide)).1,
    by decide, by decide, by decide⟩

end Wrapper
